import Mathlib

/-!
Verification development for the hiring-questionnaire chat bot (`bot.py`).

The bot is shallowly embedded: the JSON file store becomes an explicit
`Store` value, each aiogram handler becomes a pure Lean function from the
current world (session + stores) and the inbound event to a `StepResult`
(new world, outbound messages, admin deliveries, and an optional Python
exception), and the router dispatch becomes a match on the current FSM
state, in handler registration order.
-/

namespace HiringBot

/-! ### JSON values and the file store

`bot.py` keeps two JSON files (`media.json`, `admins.json`) read through
`load_json(path, default)`, which returns `default` whenever opening or
parsing fails, and written through `save_json`. -/

/-- A parsed JSON value, as produced by Python's `json.load`. -/
inductive Json where
  | null
  | bool (b : Bool)
  | num (n : Int)
  | str (s : String)
  | arr (elems : List Json)
  | obj (fields : List (String × Json))

/-- The content of one JSON file: either the file cannot be opened, or its
content does not parse, or it parses to a JSON value.  (Python dicts have
unique keys, so `obj` field lists coming from `json.load` never repeat a
key; all dict operations below consistently use the first occurrence.) -/
inductive Store where
  | unreadable
  | unparsable
  | parsed (v : Json)

/-- Python exceptions that the embedded code can raise. -/
inductive PyErr where
  | keyError
  | typeError
  | attributeError
deriving DecidableEq

/-- Embeds `load_json` (bot.py lines 27-32): any failure to open or parse
the file yields the default. -/
def load_json (store : Store) (default : Json) : Json :=
  match store with
  | .parsed v => v
  | .unreadable => default
  | .unparsable => default

/-- First-occurrence lookup in a JSON object's field list (Python `dict`
subscript / `.get`). -/
def olookup (k : String) : List (String × Json) → Option Json
  | [] => none
  | (k2, v) :: rest => if k2 == k then some v else olookup k rest

/-- Replace the value at key `k` (or append it) in a JSON object's field
list; embeds Python dict assignment for a present key and the in-place
mutation `data["admins"].append(...)` / re-assignment before `save_json`. -/
def oset (k : String) (v : Json) : List (String × Json) → List (String × Json)
  | [] => [(k, v)]
  | (k2, v2) :: rest => if k2 == k then (k, v) :: rest else (k2, v2) :: oset k v rest

/-- Python `dict.setdefault(k, v)`: insert `k ↦ v` only when `k` is absent. -/
def setdefault (k : String) (v : Json) (fields : List (String × Json)) :
    List (String × Json) :=
  match olookup k fields with
  | some _ => fields
  | none => fields ++ [(k, v)]

/-- Python `uid in data["admins"]` for an `int` uid against a list of JSON
values deserialized by `json.load`. -/
def jmemInt (n : Int) : List Json → Bool
  | [] => false
  | .num m :: rest => m == n || jmemInt n rest
  | _ :: rest => jmemInt n rest

/-- Python `list.remove(uid)`: drop the first element equal to `uid`. -/
def jremoveInt (n : Int) : List Json → List Json
  | [] => []
  | .num m :: rest => if m == n then rest else .num m :: jremoveInt n rest
  | v :: rest => v :: jremoveInt n rest

/-- Python truthiness of `media.get(key)`: `None`, `False`, `0`, `""` and
empty containers are falsy. -/
def jtruthy : Option Json → Bool
  | none => false
  | some .null => false
  | some (.bool b) => b
  | some (.num n) => n != 0
  | some (.str s) => s != ""
  | some (.arr l) => !l.isEmpty
  | some (.obj l) => !l.isEmpty

/-! ### Media and admin reads/writes (bot.py lines 53-68, 490-520) -/

/-- Embeds `get_media` (bot.py lines 53-58): load with default `{}`, then
`setdefault` the three media keys to `None`.  On a parsed value that is not
a dict, `data.setdefault` raises `AttributeError`. -/
def get_media (store : Store) : Except PyErr (List (String × Json)) :=
  match load_json store (Json.obj []) with
  | Json.obj fields =>
      .ok (setdefault "russian_video_prompt_file_id" Json.null
            (setdefault "voice_prompt_file_id" Json.null
              (setdefault "intro_video_file_id" Json.null fields)))
  | _ => .error .attributeError

/-- The default written/used for the admins file: `{"admins": [MAIN_ADMIN]}`. -/
def adminsDefault (mainAdmin : Int) : Json :=
  Json.obj [("admins", Json.arr [Json.num mainAdmin])]

/-- Result of `get_admins`: the returned list of deserialized admin
entries, the store after the call, and whether `save_json` ran. -/
structure AdminsRead where
  admins : List Json
  store : Store
  wrote : Bool

/-- Embeds `get_admins` (bot.py lines 60-65): load with default
`{"admins": [MAIN_ADMIN]}`; if `MAIN_ADMIN` is missing from
`data["admins"]`, append it and persist the whole record before returning.
`data["admins"]` raises `KeyError` when a parsed dict lacks the key and
`TypeError` when the parsed value is not a dict.  When the key holds a
dict, `MAIN_ADMIN not in data["admins"]` is `True` (the integer equals no
string key), so `.append` runs on the dict and raises `AttributeError`;
when it holds a string, number, boolean or `null`, the `in` operator
itself raises `TypeError`. -/
def get_admins (mainAdmin : Int) (store : Store) : Except PyErr AdminsRead :=
  match load_json store (adminsDefault mainAdmin) with
  | Json.obj fields =>
    match olookup "admins" fields with
    | some (Json.arr elems) =>
        if jmemInt mainAdmin elems then .ok ⟨elems, store, false⟩
        else
          .ok ⟨elems ++ [Json.num mainAdmin],
               .parsed (Json.obj (oset "admins" (Json.arr (elems ++ [Json.num mainAdmin])) fields)),
               true⟩
    | some (Json.obj _) => .error .attributeError
    | some _ => .error .typeError
    | none => .error .keyError
  | _ => .error .typeError

/-- Result of an admin mutation command: the store afterwards, the replies
sent to the invoking administrator, and whether `save_json` ran. -/
structure OpResult where
  store : Store
  replies : List String
  wrote : Bool

/-- Embeds the storage mutation of the `/add_admin` handler (bot.py lines
499-503), after the main-administrator authorization check and the
argument parsing of lines 492-498: append `uid` and persist only when it
is not already present; reply in both cases.  Wrong shapes raise as in
`get_admins`: `uid not in data["admins"]` on a dict is `True` and the
`.append` raises `AttributeError`; on a string, number, boolean or `null`
the `in` operator raises `TypeError`. -/
def add_admin (mainAdmin : Int) (uid : Int) (store : Store) : Except PyErr OpResult :=
  match load_json store (adminsDefault mainAdmin) with
  | Json.obj fields =>
    match olookup "admins" fields with
    | some (Json.arr elems) =>
      if jmemInt uid elems then
        .ok ⟨store, ["Admin qo'shildi: " ++ toString uid ++ " ✅"], false⟩
      else
        .ok ⟨.parsed (Json.obj (oset "admins" (Json.arr (elems ++ [Json.num uid])) fields)),
             ["Admin qo'shildi: " ++ toString uid ++ " ✅"], true⟩
    | some (Json.obj _) => .error .attributeError
    | some _ => .error .typeError
    | none => .error .keyError
  | _ => .error .typeError

/-- Embeds the storage mutation of the `/remove_admin` handler (bot.py
lines 513-520), after authorization and argument parsing: remove and
persist only when `uid` is present and is not the main administrator;
otherwise reply with the rejection message and leave the store untouched.
A dict-valued `admins` field raises nothing here: `uid in data["admins"]`
is `False` (the integer equals no string key), so the handler takes the
rejection branch; a string, number, boolean or `null` value makes the `in`
operator raise `TypeError`. -/
def remove_admin (mainAdmin : Int) (uid : Int) (store : Store) : Except PyErr OpResult :=
  match load_json store (adminsDefault mainAdmin) with
  | Json.obj fields =>
    match olookup "admins" fields with
    | some (Json.arr elems) =>
      if jmemInt uid elems && uid != mainAdmin then
        .ok ⟨.parsed (Json.obj (oset "admins" (Json.arr (jremoveInt uid elems)) fields)),
             ["Admin o'chirildi: " ++ toString uid ++ " ✅"], true⟩
      else
        .ok ⟨store, ["Bu foydalanuvchini o'chirish mumkin emas."], false⟩
    | some (Json.obj _) => .ok ⟨store, ["Bu foydalanuvchini o'chirish mumkin emas."], false⟩
    | some _ => .error .typeError
    | none => .error .keyError
  | _ => .error .typeError

/-! ### Date validation (bot.py lines 125-134) -/

/-- Start codepoints of every run of ten Unicode decimal digits (category
Nd): Python's regex `\d` matches exactly the characters `z + k`
(`0 ≤ k ≤ 9`) for `z` in this table, and `int()` gives such a character
the digit value `k`.  Generated from CPython 3.11 (Unicode 14.0.0). -/
def ndZeros : List Nat :=
  [48, 1632, 1776, 1984, 2406, 2534, 2662, 2790, 2918, 3046, 3174, 3302,
   3430, 3558, 3664, 3792, 3872, 4160, 4240, 6112, 6160, 6470, 6608, 6784,
   6800, 6992, 7088, 7232, 7248, 42528, 43216, 43264, 43472, 43504, 43600,
   44016, 65296, 66720, 68912, 69734, 69872, 69942, 70096, 70384, 70736,
   70864, 71248, 71360, 71472, 71904, 72016, 72784, 73040, 73120, 92768,
   92864, 93008, 120782, 120792, 120802, 120812, 120822, 123200, 123632,
   125264, 130032]

/-- The start of the decimal-digit run containing codepoint `n`, if any. -/
def ndZeroOf (n : Nat) : Option Nat :=
  ndZeros.find? (fun z => decide (z ≤ n) && decide (n ≤ z + 9))

/-- Python regex `\d` on a character: any Unicode decimal digit. -/
def isDig (c : Char) : Bool := (ndZeroOf c.toNat).isSome

/-- The numeric value `int()` gives a decimal digit character. -/
def digVal (c : Char) : Nat :=
  match ndZeroOf c.toNat with
  | some z => c.toNat - z
  | none => 0

/-- An ASCII decimal digit `0`-`9` (codepoints 48-57): what a digit
position in the spec's literal `DD.MM.YYYY` pattern means, and what the
explicit character classes of the strptime field regexes match. -/
def isAsciiDig (c : Char) : Bool :=
  decide (48 ≤ c.toNat) && decide (c.toNat ≤ 57)

/-- Numeric value of an ASCII digit character. -/
def asciiVal (c : Char) : Nat := c.toNat - 48

/-- Codepoints stripped by Python `str.strip()` (`str.isspace()`),
generated from CPython 3.11. -/
def pySpaceCodes : List Nat :=
  [9, 10, 11, 12, 13, 28, 29, 30, 31, 32, 133, 160, 5760, 8192, 8193, 8194,
   8195, 8196, 8197, 8198, 8199, 8200, 8201, 8202, 8232, 8233, 8239, 8287,
   12288]

/-- Python whitespace, as stripped by `str.strip()`. -/
def isSpaceChar (c : Char) : Bool := pySpaceCodes.contains c.toNat

/-- Python `s.strip()`. -/
def pyStrip (s : String) : String :=
  String.mk (((s.data.dropWhile isSpaceChar).reverse.dropWhile isSpaceChar).reverse)

/-- Ten characters forming the shape of `DATE_RE`: Unicode decimal digits
(`\d`) in the day, month and year positions, literal dots between them. -/
def tenDigitsDotted (a b c d e f g h i j : Char) : Bool :=
  isDig a && isDig b && c == '.' && isDig d && isDig e && f == '.' &&
  isDig g && isDig h && isDig i && isDig j

/-- Full match of `DATE_RE = ^\d{2}\.\d{2}\.\d{4}$` (bot.py line 125). -/
def dateReMatch (t : String) : Bool :=
  match t.data with
  | [a, b, c, d, e, f, g, h, i, j] => tenDigitsDotted a b c d e f g h i j
  | _ => false

/-- Decimal value of a digit list (`int(...)` on a digit-only field). -/
def natOfDigits (l : List Char) : Nat :=
  l.foldl (fun n c => 10 * n + digVal c) 0

/-- Split a character list on `'.'` (used to model how
`strptime(s, "%d.%m.%Y")` cuts the input at the literal dots). -/
def splitDots (l : List Char) : List (List Char) :=
  match l with
  | [] => [[]]
  | c :: rest =>
    if c == '.' then [] :: splitDots rest
    else
      match splitDots rest with
      | g :: gs => (c :: g) :: gs
      | [] => [[c]]

/-- Gregorian leap year, as in CPython's `datetime`. -/
def isLeap (y : Nat) : Bool := (y % 4 == 0 && y % 100 != 0) || y % 400 == 0

/-- CPython `_days_in_month`: table lookup plus the February leap-year
correction. -/
def daysInMonth (y m : Nat) : Nat :=
  if m == 2 && isLeap y then 29
  else [31, 28, 31, 30, 31, 30, 31, 31, 30, 31, 30, 31].getD (m - 1) 0

/-- The CPython strptime `%d` field regex `3[01]|[12]\d|0[1-9]|[1-9]`: the
bracketed classes and literals are ASCII (codepoints 48-57 as noted per
alternative), and only the `\d` after `[12]` accepts any Unicode digit. -/
def dayRe : List Char → Bool
  | [c1, c2] =>
      (c1.toNat == 51 && (c2.toNat == 48 || c2.toNat == 49))
      || ((c1.toNat == 49 || c1.toNat == 50) && isDig c2)
      || (c1.toNat == 48 && (decide (49 ≤ c2.toNat) && decide (c2.toNat ≤ 57)))
  | [c1] => decide (49 ≤ c1.toNat) && decide (c1.toNat ≤ 57)
  | _ => false

/-- The CPython strptime `%m` field regex `1[0-2]|0[1-9]|[1-9]`: all
alternatives are ASCII character classes. -/
def monthRe : List Char → Bool
  | [c1, c2] =>
      (c1.toNat == 49 && (decide (48 ≤ c2.toNat) && decide (c2.toNat ≤ 50)))
      || (c1.toNat == 48 && (decide (49 ≤ c2.toNat) && decide (c2.toNat ≤ 57)))
  | [c1] => decide (49 ≤ c1.toNat) && decide (c1.toNat ≤ 57)
  | _ => false

/-- The CPython strptime `%Y` field regex `\d\d\d\d`: four Unicode
decimal digits. -/
def yearRe (l : List Char) : Bool := l.all isDig && l.length == 4

/-- The `datetime(year, month, day)` constructor checks: `MINYEAR ≤ year ≤
MAXYEAR`, `1 ≤ month ≤ 12`, `1 ≤ day ≤ days_in_month(year, month)`. -/
def datetimeOk (y m d : Nat) : Bool :=
  decide (1 ≤ y) && decide (y ≤ 9999) && decide (1 ≤ m) && decide (m ≤ 12) &&
  decide (1 ≤ d) && decide (d ≤ daysInMonth y m)

/-- Predicate for `datetime.strptime(t, "%d.%m.%Y")` succeeding: the text
splits at the two literal dots into a `%d`, a `%m` and a `%Y` field (with
nothing left over; no field regex matches a dot), and the `int()` values
of the fields form a constructible date. -/
def strptime_dmY_ok (t : String) : Bool :=
  match splitDots t.data with
  | [ds, ms, ys] =>
      dayRe ds && monthRe ms && yearRe ys &&
      datetimeOk (natOfDigits ys) (natOfDigits ms) (natOfDigits ds)
  | _ => false

/-- Embeds `valid_date` (bot.py lines 127-134): the stripped text must
fully match `DATE_RE` and then parse under `strptime(..., "%d.%m.%Y")`. -/
def valid_date (s : String) : Bool :=
  dateReMatch (pyStrip s) && strptime_dmY_ok (pyStrip s)

/-! ### Spec-side date predicate (for the refinement comparison of C3) -/

/-- Days in a Gregorian month, written from the spec's notion of "a valid
calendar date": February has 29 days in leap years and 28 otherwise;
April, June, September and November have 30; the rest have 31. -/
def daysInMonthSpec (y m : Nat) : Nat :=
  if m == 2 then (if isLeap y then 29 else 28)
  else if m == 4 || m == 6 || m == 9 || m == 11 then 30
  else 31

/-- The numbers `y.m.d` denote a valid calendar date. -/
def specValidCalendar (y m d : Nat) : Bool :=
  decide (1 ≤ y) && decide (1 ≤ m) && decide (m ≤ 12) &&
  decide (1 ≤ d) && decide (d ≤ daysInMonthSpec y m)

/-- Ten characters forming the spec's literal `DD.MM.YYYY`: ASCII digits
with literal dots. -/
def tenAsciiDotted (a b c d e f g h i j : Char) : Bool :=
  isAsciiDig a && isAsciiDig b && c == '.' && isAsciiDig d && isAsciiDig e &&
  f == '.' && isAsciiDig g && isAsciiDig h && isAsciiDig i && isAsciiDig j

/-- Modelled from the spec: "`isValidDate(text) -> bool`: true iff `text`
matches the literal pattern `DD.MM.YYYY` with zero-padded two-digit day
and month and four-digit year, AND the resulting calendar date is valid".
No stripping, and the literal pattern is read as ASCII digits. -/
def specIsValidDate (s : String) : Bool :=
  match s.data with
  | [d1, d2, c1, m1, m2, c2, y1, y2, y3, y4] =>
      tenAsciiDotted d1 d2 c1 m1 m2 c2 y1 y2 y3 y4 &&
      specValidCalendar
        (10 * (10 * (10 * asciiVal y1 + asciiVal y2) + asciiVal y3) + asciiVal y4)
        (10 * asciiVal m1 + asciiVal m2)
        (10 * asciiVal d1 + asciiVal d2)
  | _ => false

/-! ### Lemmas about the date validator -/

lemma ndZeroOf_ascii_isSome :
    ∀ n < 128, (ndZeroOf n).isSome = (decide (48 ≤ n) && decide (n ≤ 57)) := by
  decide

lemma ndZeroOf_of_ascii : ∀ n < 58, 48 ≤ n → ndZeroOf n = some 48 := by
  decide

lemma isDig_ascii {c : Char} (hc : c.toNat ≤ 127) : isDig c = isAsciiDig c := by
  have h := ndZeroOf_ascii_isSome c.toNat (by omega)
  simpa [isDig, isAsciiDig] using h

lemma digVal_ascii {c : Char} (hc : isAsciiDig c = true) :
    digVal c = c.toNat - 48 := by
  simp only [isAsciiDig, Bool.and_eq_true, decide_eq_true_eq] at hc
  have h := ndZeroOf_of_ascii c.toNat (by omega) hc.1
  simp [digVal, h]

lemma isAsciiDig_bounds {c : Char} (hc : isAsciiDig c = true) :
    48 ≤ c.toNat ∧ c.toNat ≤ 57 := by
  simpa [isAsciiDig, Bool.and_eq_true, decide_eq_true_eq] using hc

lemma isAsciiDig_ne_dot {c : Char} (hc : isAsciiDig c = true) : (c == '.') = false := by
  cases hd : (c == '.') with
  | false => rfl
  | true =>
    exfalso
    have hcd : c = '.' := beq_iff_eq.mp hd
    subst hcd
    exact absurd hc (by decide)

lemma splitDots_dmY (a b d e g h i j : Char)
    (ha : (a == '.') = false) (hb : (b == '.') = false)
    (hd : (d == '.') = false) (he : (e == '.') = false)
    (hg : (g == '.') = false) (hh : (h == '.') = false)
    (hi : (i == '.') = false) (hj : (j == '.') = false) :
    splitDots [a, b, '.', d, e, '.', g, h, i, j] = [[a, b], [d, e], [g, h, i, j]] := by
  simp [splitDots, ha, hb, hd, he, hg, hh, hi, hj]

lemma natOfDigits_two (x y : Char) :
    natOfDigits [x, y] = 10 * digVal x + digVal y := by
  simp [natOfDigits, List.foldl]

lemma natOfDigits_four (x y z w : Char) :
    natOfDigits [x, y, z, w] =
      10 * (10 * (10 * digVal x + digVal y) + digVal z) + digVal w := by
  simp [natOfDigits, List.foldl]

lemma daysInMonthSpec_le_31 (y m : Nat) : daysInMonthSpec y m ≤ 31 := by
  unfold daysInMonthSpec
  split_ifs <;> omega

lemma daysInMonth_eq_spec (y m : Nat) (h1 : 1 ≤ m) (h2 : m ≤ 12) :
    daysInMonth y m = daysInMonthSpec y m := by
  interval_cases m <;> rfl

lemma valid_date_core (t : String) (ht : ∀ c ∈ t.data, c.toNat ≤ 127) :
    (dateReMatch t && strptime_dmY_ok t) = specIsValidDate t := by
  rcases t with ⟨l⟩
  rcases l with _ | ⟨a, _ | ⟨b, _ | ⟨c, _ | ⟨d, _ | ⟨e, _ | ⟨f, _ | ⟨g, _ | ⟨h, _ |
    ⟨i, _ | ⟨j, _ | ⟨k, rest⟩⟩⟩⟩⟩⟩⟩⟩⟩⟩⟩ <;> try rfl
  have ea := isDig_ascii (ht a (by simp))
  have eb := isDig_ascii (ht b (by simp))
  have ed2 := isDig_ascii (ht d (by simp))
  have ee2 := isDig_ascii (ht e (by simp))
  have eg := isDig_ascii (ht g (by simp))
  have eh2 := isDig_ascii (ht h (by simp))
  have ei2 := isDig_ascii (ht i (by simp))
  have ej := isDig_ascii (ht j (by simp))
  have hguard : tenDigitsDotted a b c d e f g h i j =
      tenAsciiDotted a b c d e f g h i j := by
    simp only [tenDigitsDotted, tenAsciiDotted, ea, eb, ed2, ee2, eg, eh2, ei2, ej]
  show (tenDigitsDotted a b c d e f g h i j &&
      strptime_dmY_ok ⟨[a, b, c, d, e, f, g, h, i, j]⟩) =
    (tenAsciiDotted a b c d e f g h i j &&
      specValidCalendar
        (10 * (10 * (10 * asciiVal g + asciiVal h) + asciiVal i) + asciiVal j)
        (10 * asciiVal d + asciiVal e)
        (10 * asciiVal a + asciiVal b))
  rw [hguard]
  cases hG : tenAsciiDotted a b c d e f g h i j with
  | false => rw [Bool.false_and, Bool.false_and]
  | true =>
    have hfacts := hG
    simp only [tenAsciiDotted, Bool.and_eq_true] at hfacts
    obtain ⟨⟨⟨⟨⟨⟨⟨⟨⟨hda, hdb⟩, hc⟩, hdd⟩, hde⟩, hf⟩, hdg⟩, hdh⟩, hdi⟩, hdj⟩ := hfacts
    have hceq : c = '.' := beq_iff_eq.mp hc
    have hfeq : f = '.' := beq_iff_eq.mp hf
    subst hceq hfeq
    rw [Bool.true_and, Bool.true_and]
    show strptime_dmY_ok ⟨[a, b, '.', d, e, '.', g, h, i, j]⟩ = _
    unfold strptime_dmY_ok
    show (match splitDots [a, b, '.', d, e, '.', g, h, i, j] with
      | [ds, ms, ys] =>
          dayRe ds && monthRe ms && yearRe ys &&
          datetimeOk (natOfDigits ys) (natOfDigits ms) (natOfDigits ds)
      | _ => false) = _
    rw [splitDots_dmY a b d e g h i j (isAsciiDig_ne_dot hda) (isAsciiDig_ne_dot hdb)
      (isAsciiDig_ne_dot hdd) (isAsciiDig_ne_dot hde) (isAsciiDig_ne_dot hdg)
      (isAsciiDig_ne_dot hdh) (isAsciiDig_ne_dot hdi) (isAsciiDig_ne_dot hdj)]
    obtain ⟨ba1, ba2⟩ := isAsciiDig_bounds hda
    obtain ⟨bb1, bb2⟩ := isAsciiDig_bounds hdb
    obtain ⟨bd1, bd2⟩ := isAsciiDig_bounds hdd
    obtain ⟨be1, be2⟩ := isAsciiDig_bounds hde
    obtain ⟨bg1, bg2⟩ := isAsciiDig_bounds hdg
    obtain ⟨bh1, bh2⟩ := isAsciiDig_bounds hdh
    obtain ⟨bi1, bi2⟩ := isAsciiDig_bounds hdi
    obtain ⟨bj1, bj2⟩ := isAsciiDig_bounds hdj
    have hY9999 :
        10 * (10 * (10 * (g.toNat - 48) + (h.toNat - 48)) + (i.toNat - 48)) +
          (j.toNat - 48) ≤ 9999 := by omega
    have hspec31 := daysInMonthSpec_le_31
      (10 * (10 * (10 * (g.toNat - 48) + (h.toNat - 48)) + (i.toNat - 48)) + (j.toNat - 48))
      (10 * (d.toNat - 48) + (e.toNat - 48))
    simp only [dayRe, monthRe, yearRe, datetimeOk, specValidCalendar, asciiVal,
      natOfDigits_two, natOfDigits_four,
      digVal_ascii hda, digVal_ascii hdb, digVal_ascii hdd, digVal_ascii hde,
      digVal_ascii hdg, digVal_ascii hdh, digVal_ascii hdi, digVal_ascii hdj,
      eb, hdb, List.all_cons, List.all_nil, List.length_cons, List.length_nil,
      eg, eh2, ei2, ej, hdg, hdh, hdi, hdj,
      Bool.and_true, Bool.true_and]
    apply Bool.eq_iff_iff.mpr
    simp only [Bool.and_eq_true, Bool.or_eq_true, decide_eq_true_eq, and_assoc,
      beq_iff_eq, Nat.reduceEqDiff, true_and, and_true]
    constructor
    · rintro ⟨hday, hmonth, hY1, hY2, hM1, hM2, hD1, hD2⟩
      rw [daysInMonth_eq_spec _ _ hM1 hM2] at hD2
      exact ⟨hY1, hM1, hM2, hD1, hD2⟩
    · rintro ⟨hY1, hM1, hM2, hD1, hD2⟩
      have hdim := daysInMonth_eq_spec
        (10 * (10 * (10 * (g.toNat - 48) + (h.toNat - 48)) + (i.toNat - 48)) +
          (j.toNat - 48))
        (10 * (d.toNat - 48) + (e.toNat - 48)) hM1 hM2
      refine ⟨by omega, by omega, hY1, hY9999, hM1, hM2, hD1, by omega⟩

/-- Claim C3, counterexample: `" 01.01.2020"` does not match the literal
pattern `DD.MM.YYYY`, yet `valid_date` accepts it because the code strips
the input before matching; and `"01.01.٢٠٢٠"` (Arabic-Indic year digits,
codepoints 1632/1634) does not match the literal ASCII pattern either, yet
`valid_date` accepts it because Python's `\d` and `int()` accept any
Unicode decimal digit.  So `valid_date` is not "false for every other
string". -/
theorem claim3_counterexample :
    valid_date " 01.01.2020" = true ∧ specIsValidDate " 01.01.2020" = false ∧
    valid_date "01.01.٢٠٢٠" = true ∧
    specIsValidDate "01.01.٢٠٢٠" = false := by
  refine ⟨by decide, by decide, by decide, by decide⟩

/-- Claim C3 (amended): restricted to ASCII input, `valid_date s` is true
exactly when the whitespace-stripped `s` matches the literal pattern
`DD.MM.YYYY` with a valid calendar date; in particular `"31.02.2020"`,
`"00.01.2020"` and `"1.1.2020"` are rejected.  (Beyond ASCII, Python's
`\d` and `int()` accept any Unicode decimal digit, so `valid_date` also
accepts strings outside the literal pattern — see the counterexample.) -/
theorem claim3_valid_date_spec (s : String)
    (hascii : ∀ c ∈ s.data, c.toNat ≤ 127) :
    valid_date s = specIsValidDate (pyStrip s) ∧
    valid_date "31.02.2020" = false ∧
    valid_date "00.01.2020" = false ∧
    valid_date "1.1.2020" = false := by
  refine ⟨?_, by decide, by decide, by decide⟩
  rw [valid_date]
  refine valid_date_core (pyStrip s) ?_
  intro c hcmem
  refine hascii c ?_
  have h1 : (pyStrip s).data =
      ((s.data.dropWhile isSpaceChar).reverse.dropWhile isSpaceChar).reverse := rfl
  rw [h1] at hcmem
  rw [List.mem_reverse] at hcmem
  have h2 := List.dropWhile_sublist (l := (s.data.dropWhile isSpaceChar).reverse)
    (p := isSpaceChar)
  have h3 := h2.subset hcmem
  rw [List.mem_reverse] at h3
  exact (List.dropWhile_sublist (l := s.data) (p := isSpaceChar)).subset h3

/-- Witness for the amended C3, at the ASCII string `" 01.01.2020"`. -/
theorem claim3_valid_date_spec_witness :
    (∀ c ∈ (" 01.01.2020" : String).data, c.toNat ≤ 127) ∧
    (valid_date " 01.01.2020" = specIsValidDate (pyStrip " 01.01.2020") ∧
     valid_date "31.02.2020" = false ∧
     valid_date "00.01.2020" = false ∧
     valid_date "1.1.2020" = false) :=
  ⟨by decide, claim3_valid_date_spec " 01.01.2020" (by decide)⟩

/-! ### The questionnaire state machine (bot.py lines 70-94)

Each aiogram handler becomes a pure function; the router dispatch becomes
`step` below, which checks handlers in registration order: `CommandStart`
first (bot.py line 137), then the per-state message/callback handlers, and
the `/cancel` command last (line 522).  The admin media/registry commands
(lines 449-520) are embedded separately above and in the store operations,
since no questionnaire claim routes through them. -/

/-- The FSM states of `class Form(StatesGroup)` (bot.py lines 71-94). -/
inductive FormState where
  | ChooseJob | AskName | AskPhone | AskAddress | AskBirthday | AskEducation
  | AskExperience | AskMarital | WaitVoiceAnswer | AskRussian | WaitVideoAnswer
  | AskConsent | AskReference | AskDuration | AskOvertime | AskHealth
  | AskWhyLate | AskWhySteal | AskWhyGoodBad | AskPrevSalary | AskDesiredSalary
  | AskCourses | Done
deriving DecidableEq

/-- An inbound Telegram message: the optional fields of the aiogram
`Message` object that the handlers read (`text`, `contact.phone_number`,
`voice.file_id`, `video.file_id`, `video_note.file_id`).  A photo or any
other unhandled content type is a message with all five fields `none`. -/
structure Msg where
  text : Option String
  contact : Option String
  voice : Option String
  video : Option String
  videoNote : Option String
deriving DecidableEq

/-- An inbound event: a message or an inline-keyboard callback query
carrying its `data` string. -/
inductive Event where
  | msg (m : Msg)
  | callback (data : String)
deriving DecidableEq

/-- One user's FSM context: the current state (`none` = no active
session) and the `update_data` dict, which holds the `answers`
insertion-ordered dict and the `intro_msg_id` saved by `on_start`.
`state.clear()` resets all three. -/
structure Session where
  state : Option FormState
  answers : List (String × String)
  introMsgId : Option Nat
deriving DecidableEq

/-- The mutable world a handler sees: the user's session plus the two
JSON file stores. -/
structure World where
  session : Session
  media : Store
  admins : Store

/-- An outbound action directed at the interacting user. -/
inductive Out where
  | answerText (t : String)
  | sendVideoJ (v : Json)
  | sendVoiceJ (v : Json)
  | deleteMsg (id : Nat)
  | callbackAck

/-- A payload delivered to one administrator during the completion
fan-out. -/
inductive Payload where
  | ptext (t : String)
  | pvoice (fid : String)
  | pvideo (fid : String)
deriving DecidableEq

/-- The result of dispatching one event: the world afterwards, the
outbound actions to the user, the admin deliveries, the report lines
composed by `finish_form` (observability of the final report), and the
Python exception the handler raised, if any.  Effects listed before the
raising statement have already happened when `err` is `some`. -/
structure StepResult where
  session : Session
  media : Store
  admins : Store
  outs : List Out
  adminSends : List (Json × Payload)
  report : Option (List String)
  err : Option PyErr

/-- The result of a handler that does nothing (or of no handler matching). -/
def noEffect (w : World) : StepResult :=
  ⟨w.session, w.media, w.admins, [], [], none, none⟩

/-- The world carried out of a step result. -/
def resWorld (r : StepResult) : World := ⟨r.session, r.media, r.admins⟩

/-- Python dict assignment `answers[k] = v` on the insertion-ordered
answers dict: update in place when the key exists, else append. -/
def dictInsert (d : List (String × String)) (k v : String) : List (String × String) :=
  if d.any (fun p => p.1 == k) then
    d.map (fun p => if p.1 == k then (k, v) else p)
  else d ++ [(k, v)]

/-- Python `answers.get(k)` / `k in answers` on the answers dict. -/
def dictGet (d : List (String × String)) (k : String) : Option String :=
  match d with
  | [] => none
  | (k2, v) :: rest => if k2 == k then some v else dictGet rest k

/-- Python `startswith` on character lists (first list is the candidate prefix). -/
def listPre : List Char → List Char → Bool
  | [], _ => true
  | a :: as, l2 =>
    match l2 with
    | [] => false
    | b :: bs => a == b && listPre as bs

/-- aiogram `Command(name)` filter on a text: `/name` alone or followed by
an argument. -/
def isCmdText (name : String) (t : String) : Bool :=
  t == "/" ++ name || listPre ("/" ++ name ++ " ").data t.data

/-- aiogram `CommandStart()` filter on the optional message text. -/
def isStartTxt : Option String → Bool
  | none => false
  | some t => isCmdText "start" t

/-- Truthiness of the `F.text` magic filter: the text exists and is
non-empty. -/
def textTruthy : Option String → Bool
  | none => false
  | some t => t != ""

/-- The filter `F.data.startswith(p ++ ":")` on a callback data string. -/
def cbPre (p : String) (d : String) : Bool :=
  listPre (p ++ ":").data d.data

/-- Everything after the first `':'`: `call.data.split(":", 1)[1]`. -/
def dropThroughColon : List Char → List Char
  | [] => []
  | c :: rest => if c == ':' then rest else dropThroughColon rest

/-- Python `call.data.split(":", 1)[1]` for data that contains a colon. -/
def afterColon (s : String) : String := String.mk (dropThroughColon s.data)

/-! ### Handlers -/

/-- Embeds `on_start` (bot.py lines 137-153): read the media config, push
the intro video when one is set (failures ignored), send the job-choice
prompt, remember its message id in the FSM data (the other data keys,
including any previous `answers`, are merged, not cleared), and enter
`ChooseJob`. -/
def on_start (w : World) (msgId : Nat) : StepResult :=
  match get_media w.media with
  | .error e => { noEffect w with err := some e }
  | .ok media =>
    let intro :=
      if jtruthy (olookup "intro_video_file_id" media) then
        [Out.sendVideoJ ((olookup "intro_video_file_id" media).getD Json.null)]
      else []
    { noEffect w with
      session := { state := some .ChooseJob, answers := w.session.answers,
                   introMsgId := some msgId },
      outs := intro ++ [Out.answerText "Quyidagi tugmalardan birini tanlang (ish turi):"] }

/-- Embeds `on_job_choice` (bot.py lines 156-171): delete the job prompt
message when its id was saved (and truthy), reset `answers` to exactly the
job-type entry, acknowledge the callback, ask for the name, and enter
`AskName`. -/
def on_job_choice (w : World) (d : String) : StepResult :=
  let job := afterColon d
  let del :=
    match w.session.introMsgId with
    | some msgid => if msgid != 0 then [Out.deleteMsg msgid] else []
    | none => []
  { noEffect w with
    session := { state := some .AskName, answers := [("Ish turi", job)],
                 introMsgId := w.session.introMsgId },
    outs := del ++ [Out.callbackAck, Out.answerText "Ism-familyangizni yozing:"] }

/-- Shared shape of the guarded free-text handlers (bot.py lines 173-181,
203-211, 239-248): ignore messages without (truthy) text, otherwise record
the stripped text under `label`, send the next prompt and advance. -/
def guardedText (w : World) (m : Msg) (label prompt : String)
    (nxt : FormState) : StepResult :=
  match m.text with
  | none => noEffect w
  | some t =>
    if t == "" then noEffect w
    else
      { noEffect w with
        session := { w.session with
            state := some nxt,
            answers := dictInsert w.session.answers label (pyStrip t) },
        outs := [Out.answerText prompt] }

/-- Shared shape of the unguarded free-text handlers (bot.py lines
332-417): `message.text.strip()` is evaluated without a text guard, so a
non-text message raises `AttributeError` (with no state or answer
mutation, since the raise precedes them). -/
def unguardedText (w : World) (m : Msg) (label prompt : String)
    (nxt : FormState) : StepResult :=
  match m.text with
  | none => { noEffect w with err := some .attributeError }
  | some t =>
    { noEffect w with
      session := { w.session with
          state := some nxt,
          answers := dictInsert w.session.answers label (pyStrip t) },
      outs := [Out.answerText prompt] }

/-- Embeds `ask_phone` (bot.py lines 173-182), the `AskName` handler. -/
def ask_phone (w : World) (m : Msg) : StepResult :=
  guardedText w m "Ism-familiya"
    "Telefon raqamingizni yozing:\nMisol: +998909998877" .AskPhone

/-- Embeds `phone_via_contact` (bot.py lines 184-192): record the shared
contact's phone number verbatim (no strip). -/
def phone_via_contact (w : World) (m : Msg) : StepResult :=
  { noEffect w with
    session := { w.session with
        state := some .AskAddress,
        answers := dictInsert w.session.answers "Telefon raqami" (m.contact.getD "") },
    outs := [Out.answerText "Doimiy yashash manzilingizni yozing (propiska):"] }

/-- Embeds `phone_manual` (bot.py lines 194-201): record the stripped
text. -/
def phone_manual (w : World) (m : Msg) : StepResult :=
  { noEffect w with
    session := { w.session with
        state := some .AskAddress,
        answers := dictInsert w.session.answers "Telefon raqami" (pyStrip (m.text.getD "")) },
    outs := [Out.answerText "Doimiy yashash manzilingizni yozing (propiska):"] }

/-- Embeds `ask_birthday` (bot.py lines 203-212), the `AskAddress`
handler. -/
def ask_birthday (w : World) (m : Msg) : StepResult :=
  guardedText w m "Manzil (propiska)"
    "O'z tug'ilgan kuningizni 01.01.2000 formatda yozing:" .AskBirthday

/-- Embeds `ask_education` (bot.py lines 214-226), the `AskBirthday`
handler: silently ignore non-text (and empty-text) messages; re-prompt
without advancing on an invalid date; otherwise record the stripped date
and advance to `AskEducation`. -/
def ask_education (w : World) (m : Msg) : StepResult :=
  match m.text with
  | none => noEffect w
  | some t =>
    if t == "" then noEffect w
    else if valid_date t then
      { noEffect w with
        session := { w.session with
            state := some .AskEducation,
            answers := dictInsert w.session.answers "Tug'ilgan sana" (pyStrip t) },
        outs := [Out.answerText "Ma'lumotingiz:"] }
    else
      { noEffect w with
        outs := [Out.answerText "Tug'ilgan kuningizni 01.01.2000 formatda yozing."] }

/-- Embeds `ask_experience` (bot.py lines 228-237), the `AskEducation`
callback handler. -/
def ask_experience (w : World) (d : String) : StepResult :=
  { noEffect w with
    session := { w.session with
        state := some .AskExperience,
        answers := dictInsert w.session.answers "Ma'lumoti" (afterColon d) },
    outs := [Out.callbackAck,
             Out.answerText "Oldin qaysi korxonalarda va qaysi lavozimda ishlagansiz?\nMisol:\n1. Perfect Consulting Group - Sotuv menejeri\n2. Alora - sotuvchi\n3. Ishlamaganman"] }

/-- Embeds `ask_marital` (bot.py lines 239-248), the `AskExperience`
handler. -/
def ask_marital (w : World) (m : Msg) : StepResult :=
  guardedText w m "Ish tajribasi" "Oila qurganmisiz?" .AskMarital

/-- Embeds `send_voice_prompt` (bot.py lines 250-266), the `AskMarital`
callback handler: record the choice, acknowledge, then read the media
config (a raise here happens after the answer was persisted and leaves the
state unchanged); push the stored voice prompt if any, else the text
fallback; enter `WaitVoiceAnswer`. -/
def send_voice_prompt (w : World) (d : String) : StepResult :=
  let answers2 := dictInsert w.session.answers "Oilaviy holat" (afterColon d)
  match get_media w.media with
  | .error e =>
    { noEffect w with
      session := { w.session with answers := answers2 },
      outs := [Out.callbackAck], err := some e }
  | .ok media =>
    let prompt :=
      if jtruthy (olookup "voice_prompt_file_id" media) then
        [Out.sendVoiceJ ((olookup "voice_prompt_file_id" media).getD Json.null)]
      else [Out.answerText "Iltimos, savolga OVOZ xabari bilan javob yuboring."]
    { noEffect w with
      session := { w.session with state := some .WaitVoiceAnswer, answers := answers2 },
      outs := [Out.callbackAck] ++ prompt }

/-- Embeds `ask_russian_level` (bot.py lines 268-280), the
`WaitVoiceAnswer` voice handler: record the voice file id and advance. -/
def ask_russian_level (w : World) (m : Msg) : StepResult :=
  { noEffect w with
    session := { w.session with
        state := some .AskRussian,
        answers := dictInsert w.session.answers "Ovozli javob (file_id)" (m.voice.getD "") },
    outs := [Out.answerText "Rus tilini qay darajada bilasiz:"] }

/-- Embeds `send_video_prompt` (bot.py lines 284-300), the `AskRussian`
callback handler; mirrors `send_voice_prompt` with the video prompt. -/
def send_video_prompt (w : World) (d : String) : StepResult :=
  let answers2 := dictInsert w.session.answers "Rus tili darajasi" (afterColon d)
  match get_media w.media with
  | .error e =>
    { noEffect w with
      session := { w.session with answers := answers2 },
      outs := [Out.callbackAck], err := some e }
  | .ok media =>
    let prompt :=
      if jtruthy (olookup "russian_video_prompt_file_id" media) then
        [Out.sendVideoJ ((olookup "russian_video_prompt_file_id" media).getD Json.null)]
      else [Out.answerText "Iltimos, VIDEOLI xabar yuboring (video yoki video-note)."]
    { noEffect w with
      session := { w.session with state := some .WaitVideoAnswer, answers := answers2 },
      outs := [Out.callbackAck] ++ prompt }

/-- Embeds `ask_consent` (bot.py lines 302-316), the `WaitVideoAnswer`
video/video-note handler: `message.video.file_id if message.video else
message.video_note.file_id`. -/
def ask_consent (w : World) (m : Msg) : StepResult :=
  let fid := match m.video with
    | some v => v
    | none => m.videoNote.getD ""
  { noEffect w with
    session := { w.session with
        state := some .AskConsent,
        answers := dictInsert w.session.answers "Video javob (file_id)" fid },
    outs := [Out.answerText "Oxirgi ish joyingizdan siz haqingizda surishtirishimizga rozimisiz?"] }

/-- Embeds `ask_reference` (bot.py lines 321-330), the `AskConsent`
callback handler. -/
def ask_reference (w : World) (d : String) : StepResult :=
  { noEffect w with
    session := { w.session with
        state := some .AskReference,
        answers := dictInsert w.session.answers "Surishtirish roziligi" (afterColon d) },
    outs := [Out.callbackAck,
             Out.answerText "Oxirgi ish joyingizdan kim sizga tavsiya xati bera oladi, nomi, ishlash joyi, lavozimi, telefon raqami:\nMisol: Direktor - Malika Akramovna - Nona collection - +998909998877"] }

/-- Embeds `ask_duration` (bot.py lines 332-339), the `AskReference`
handler — unguarded: a non-text message raises. -/
def ask_duration (w : World) (m : Msg) : StepResult :=
  unguardedText w m "Tavsiyanoma beruvchi"
    "Bizning korxonada qancha muddat ishlamoqchisiz?" .AskDuration

/-- Embeds `ask_overtime` (bot.py lines 341-348). -/
def ask_overtime (w : World) (m : Msg) : StepResult :=
  unguardedText w m "Qancha muddat ishlamoqchi"
    "Korxonada ishdan keyin xam qolib ishlash kerak bo‘lib qolsa ishlaysizmi?" .AskOvertime

/-- Embeds `ask_health` (bot.py lines 350-357). -/
def ask_health (w : World) (m : Msg) : StepResult :=
  unguardedText w m "Ishdan keyin qolishga rozilik"
    "Sog‘ligingizda muammo yo‘qmi?" .AskHealth

/-- Embeds `ask_whylate` (bot.py lines 359-366). -/
def ask_whylate (w : World) (m : Msg) : StepResult :=
  unguardedText w m "Sog'liq holati"
    "Nima uchun ayrim odamlar ishga kech kelishadi?" .AskWhyLate

/-- Embeds `ask_whysteal` (bot.py lines 368-375). -/
def ask_whysteal (w : World) (m : Msg) : StepResult :=
  unguardedText w m "Nega kech kelishadi"
    "Nima uchun ayrim insonlar o'g'rilik qilishadi?" .AskWhySteal

/-- Embeds `ask_whygoodbad` (bot.py lines 377-384). -/
def ask_whygoodbad (w : World) (m : Msg) : StepResult :=
  unguardedText w m "Nega o'g'rilik qilishadi"
    "Nima uchun ayrim ishchilar yaxshi ishlashadi, ayrimlari yomon? Bunga sabab nima?" .AskWhyGoodBad

/-- Embeds `ask_prev_salary` (bot.py lines 386-393). -/
def ask_prev_salary (w : World) (m : Msg) : StepResult :=
  unguardedText w m "Yaxshi-yomon ish sababi"
    "Oldingi ishxonangizda qancha maoshga ishlgansiz?" .AskPrevSalary

/-- Embeds `ask_desired_salary` (bot.py lines 395-402). -/
def ask_desired_salary (w : World) (m : Msg) : StepResult :=
  unguardedText w m "Oldingi maosh"
    "Bizning ishxonamizda qancha maoshga ishlamoqchisiz?" .AskDesiredSalary

/-- Embeds `ask_courses` (bot.py lines 404-411). -/
def ask_courses (w : World) (m : Msg) : StepResult :=
  unguardedText w m "Kutilgan maosh"
    "Qanday kurslarda o‘qigansiz?" .AskCourses

/-! ### Completion fan-out (bot.py lines 413-446) -/

/-- The report lines of `finish_form`: the requestor identity header, the
pinned name and job-type lines, then every other answer in capture order. -/
def reportRest : List (String × String) → List String
  | [] => []
  | (k, v) :: rest =>
    if k == "Ism-familiya" || k == "Ish turi" then reportRest rest
    else (k ++ ": " ++ v) :: reportRest rest

/-- The `lines` list as composed in `finish_form` (bot.py lines 419-425). -/
def composeReport (uid : Int) (answers : List (String × String)) : List String :=
  ("üìù Yangi ariza #" ++ toString uid)
  :: ("F.I.Sh: " ++ (dictGet answers "Ism-familiya").getD "")
  :: ("Ish turi: " ++ (dictGet answers "Ish turi").getD "")
  :: reportRest answers

/-- What one admin's `try` block attempts, in order: the text report, then
the captured voice, then the captured video (each only when present in the
answers). -/
def adminBlock (answers : List (String × String)) (reportText : String) : List Payload :=
  [Payload.ptext reportText]
  ++ (match dictGet answers "Ovozli javob (file_id)" with
      | some fid => [Payload.pvoice fid]
      | none => [])
  ++ (match dictGet answers "Video javob (file_id)" with
      | some fid => [Payload.pvideo fid]
      | none => [])

/-- The sends that actually reach one admin, given which of its sends
succeed: the block up to (excluding) the first failing send — a raise
inside the `try` aborts the rest of that admin's block. -/
def deliverFrom (ok : Nat → Bool) : Nat → List Payload → List Payload
  | _, [] => []
  | n, p :: ps => if ok n then p :: deliverFrom ok (n + 1) ps else []

/-- The full fan-out loop (bot.py lines 428-442): per-admin delivery with
per-admin exception swallowing; one failing recipient never aborts the
loop. `oracle a n` tells whether the `n`-th send to admin `a` succeeds. -/
def fanOut (oracle : Json → Nat → Bool) (admins : List Json)
    (items : List Payload) : List (Json × Payload) :=
  admins.flatMap (fun a => (deliverFrom (oracle a) 0 items).map (fun p => (a, p)))

/-- Embeds `finish_form` (bot.py lines 413-446), the `AskCourses` handler:
record the last answer (locally — it is never written back to the FSM
data), compose the report, read the admin registry (self-healing read; a
raise there aborts before any delivery), fan the report and captured
attachments out to every admin, confirm to the user, and clear the
session. -/
def finish_form (mainAdmin : Int) (oracle : Json → Nat → Bool) (uid : Int)
    (w : World) (m : Msg) : StepResult :=
  match m.text with
  | none => { noEffect w with err := some .attributeError }
  | some t =>
    let answers2 := dictInsert w.session.answers "Kurslar" (pyStrip t)
    let lines := composeReport uid answers2
    match get_admins mainAdmin w.admins with
    | .error e => { noEffect w with report := some lines, err := some e }
    | .ok r =>
      { session := ⟨none, [], none⟩,
        media := w.media,
        admins := r.store,
        outs := [Out.answerText "Ma'lumotlaringiz qabul qilindi. Tez orada xabarini beramiz!"],
        adminSends := fanOut oracle r.admins (adminBlock answers2 (String.intercalate "\n" lines)),
        report := some lines,
        err := none }

/-- Embeds `cancel` (bot.py lines 522-525). -/
def cancel (w : World) : StepResult :=
  { noEffect w with
    session := ⟨none, [], none⟩,
    outs := [Out.answerText "Bekor qilindi. /start dan qayta boshlang."] }

/-- The `/cancel` fallback reached when no state handler matched the
message (commands are registered after the state handlers). -/
def cmdFallback (w : World) (m : Msg) : StepResult :=
  match m.text with
  | some t => if isCmdText "cancel" t then cancel w else noEffect w
  | none => noEffect w

/-! ### Router dispatch -/

/-- One dispatch of an inbound event through the router, in handler
registration order.  `msgId` is the transport-assigned id of the prompt
message `on_start` sends; `uid` is `message.from_user.id`. -/
def step (mainAdmin : Int) (oracle : Json → Nat → Bool) (uid : Int)
    (msgId : Nat) (w : World) (e : Event) : StepResult :=
  match e with
  | .msg m =>
    if isStartTxt m.text then on_start w msgId
    else
      match w.session.state with
      | some .AskName => ask_phone w m
      | some .AskPhone =>
        if m.contact.isSome then phone_via_contact w m
        else if textTruthy m.text then phone_manual w m
        else cmdFallback w m
      | some .AskAddress => ask_birthday w m
      | some .AskBirthday => ask_education w m
      | some .AskExperience => ask_marital w m
      | some .WaitVoiceAnswer =>
        if m.voice.isSome then ask_russian_level w m else cmdFallback w m
      | some .WaitVideoAnswer =>
        if m.video.isSome || m.videoNote.isSome then ask_consent w m
        else cmdFallback w m
      | some .AskReference => ask_duration w m
      | some .AskDuration => ask_overtime w m
      | some .AskOvertime => ask_health w m
      | some .AskHealth => ask_whylate w m
      | some .AskWhyLate => ask_whysteal w m
      | some .AskWhySteal => ask_whygoodbad w m
      | some .AskWhyGoodBad => ask_prev_salary w m
      | some .AskPrevSalary => ask_desired_salary w m
      | some .AskDesiredSalary => ask_courses w m
      | some .AskCourses => finish_form mainAdmin oracle uid w m
      | _ => cmdFallback w m
  | .callback d =>
    match w.session.state with
    | some .ChooseJob => if cbPre "job" d then on_job_choice w d else noEffect w
    | some .AskEducation => if cbPre "edu" d then ask_experience w d else noEffect w
    | some .AskMarital => if cbPre "marital" d then send_voice_prompt w d else noEffect w
    | some .AskRussian => if cbPre "ru" d then send_video_prompt w d else noEffect w
    | some .AskConsent => if cbPre "yn" d then ask_reference w d else noEffect w
    | _ => noEffect w

/-- Fold `step` over a list of events, carrying the world. -/
def runEvents (mainAdmin : Int) (oracle : Json → Nat → Bool) (uid : Int)
    (msgId : Nat) : World → List Event → World
  | w, [] => w
  | w, e :: es =>
    runEvents mainAdmin oracle uid msgId (resWorld (step mainAdmin oracle uid msgId w e)) es

/-- What an outside observer sees of one step: the user-directed actions,
admin deliveries, composed report and raised exception — everything except
the internal session/store state. -/
structure Obs where
  outs : List Out
  adminSends : List (Json × Payload)
  report : Option (List String)
  err : Option PyErr

/-- Project a step result onto its observation. -/
def obsOf (r : StepResult) : Obs := ⟨r.outs, r.adminSends, r.report, r.err⟩

/-- The observation sequence of a run. -/
def obsTrace (mainAdmin : Int) (oracle : Json → Nat → Bool) (uid : Int)
    (msgId : Nat) : World → List Event → List Obs
  | _, [] => []
  | w, e :: es =>
    obsOf (step mainAdmin oracle uid msgId w e)
    :: obsTrace mainAdmin oracle uid msgId (resWorld (step mainAdmin oracle uid msgId w e)) es

/-! ### Dispatch helper lemmas -/

lemma listPre_append_self (p l : List Char) : listPre p (p ++ l) = true := by
  induction p with
  | nil => rfl
  | cons a as ih => simp [listPre, ih]

lemma cbPre_job (j : String) : cbPre "job" ("job:" ++ j) = true := by
  rcases j with ⟨jl⟩
  show listPre (['j', 'o', 'b', ':']) ((['j', 'o', 'b', ':'] : List Char) ++ jl) = true
  exact listPre_append_self _ _

lemma cbPre_edu (j : String) : cbPre "edu" ("edu:" ++ j) = true := by
  rcases j with ⟨jl⟩
  show listPre (['e', 'd', 'u', ':']) ((['e', 'd', 'u', ':'] : List Char) ++ jl) = true
  exact listPre_append_self _ _

lemma cbPre_marital (j : String) : cbPre "marital" ("marital:" ++ j) = true := by
  rcases j with ⟨jl⟩
  show listPre (['m', 'a', 'r', 'i', 't', 'a', 'l', ':'])
    ((['m', 'a', 'r', 'i', 't', 'a', 'l', ':'] : List Char) ++ jl) = true
  exact listPre_append_self _ _

lemma cbPre_ru (j : String) : cbPre "ru" ("ru:" ++ j) = true := by
  rcases j with ⟨jl⟩
  show listPre (['r', 'u', ':']) ((['r', 'u', ':'] : List Char) ++ jl) = true
  exact listPre_append_self _ _

lemma cbPre_yn (j : String) : cbPre "yn" ("yn:" ++ j) = true := by
  rcases j with ⟨jl⟩
  show listPre (['y', 'n', ':']) ((['y', 'n', ':'] : List Char) ++ jl) = true
  exact listPre_append_self _ _

lemma afterColon_job (j : String) : afterColon ("job:" ++ j) = j := by
  rcases j with ⟨jl⟩
  rfl

lemma afterColon_edu (j : String) : afterColon ("edu:" ++ j) = j := by
  rcases j with ⟨jl⟩
  rfl

lemma afterColon_marital (j : String) : afterColon ("marital:" ++ j) = j := by
  rcases j with ⟨jl⟩
  rfl

lemma afterColon_ru (j : String) : afterColon ("ru:" ++ j) = j := by
  rcases j with ⟨jl⟩
  rfl

lemma afterColon_yn (j : String) : afterColon ("yn:" ++ j) = j := by
  rcases j with ⟨jl⟩
  rfl

lemma beq_empty_false {t : String} (h : t ≠ "") : (t == "") = false := by
  rw [beq_eq_false_iff_ne]
  exact h

/-! ### Claim C1 -/

/-- Claim C1 (code bug): a non-text message — e.g. a photo, embedded as a
message with no text, contact, voice or video — at the free-text state
`AskReference` is not silently ignored: the handler `ask_duration`
evaluates `message.text.strip()` with `text = None` and raises
`AttributeError`.  The session state and answers stay unchanged and
nothing is sent, but an error is raised, contradicting the claimed
silent-ignore policy (which `AskName`/`AskAddress`/`AskBirthday`/
`AskExperience` do implement via their `if not message.text` guard). -/
theorem claim1_nontext_at_askreference_raises :
    (step 111 (fun _ _ => true) 999 55
        ⟨⟨some .AskReference, [("Ish turi", "Sotuvchi")], none⟩,
         .parsed (.obj []), .parsed (.obj [("admins", Json.arr [Json.num 111])])⟩
        (.msg ⟨none, none, none, none, none⟩)).err = some .attributeError ∧
    (step 111 (fun _ _ => true) 999 55
        ⟨⟨some .AskReference, [("Ish turi", "Sotuvchi")], none⟩,
         .parsed (.obj []), .parsed (.obj [("admins", Json.arr [Json.num 111])])⟩
        (.msg ⟨none, none, none, none, none⟩)).session =
      ⟨some .AskReference, [("Ish turi", "Sotuvchi")], none⟩ ∧
    (step 111 (fun _ _ => true) 999 55
        ⟨⟨some .AskReference, [("Ish turi", "Sotuvchi")], none⟩,
         .parsed (.obj []), .parsed (.obj [("admins", Json.arr [Json.num 111])])⟩
        (.msg ⟨none, none, none, none, none⟩)).outs = [] :=
  ⟨rfl, rfl, rfl⟩

/-! ### Claim C7 -/

/-- Claim C7, counterexample: `"/start"` is a text input at `AskBirthday`
on which `isValidDate` is false, yet the machine does not send the
corrective re-prompt and does not stay at `AskBirthday`: the
`CommandStart` handler is registered before the state handlers, so the
session restarts and the job prompt is sent instead. -/
theorem claim7_counterexample :
    valid_date "/start" = false ∧
    (step 111 (fun _ _ => true) 999 55
        ⟨⟨some .AskBirthday, [("Ish turi", "Sotuvchi")], none⟩,
         .parsed (.obj []), .parsed (.obj [("admins", Json.arr [Json.num 111])])⟩
        (.msg ⟨some "/start", none, none, none, none⟩)).outs =
      [Out.answerText "Quyidagi tugmalardan birini tanlang (ish turi):"] ∧
    (step 111 (fun _ _ => true) 999 55
        ⟨⟨some .AskBirthday, [("Ish turi", "Sotuvchi")], none⟩,
         .parsed (.obj []), .parsed (.obj [("admins", Json.arr [Json.num 111])])⟩
        (.msg ⟨some "/start", none, none, none, none⟩)).session.state =
      some .ChooseJob := by
  refine ⟨by decide, rfl, rfl⟩

/-- Claim C7 (amended): in state `AskBirthday`, for every non-empty text
input that is not a `/start` command, if `isValidDate` is false the
machine sends exactly the corrective re-prompt and changes nothing else
(state and answers unchanged, no error); if `isValidDate` is true it
records the stripped text under the birthday label and advances to
`AskEducation` with the education prompt. -/
theorem claim7_askbirthday_behavior (mainAdmin : Int) (oracle : Json → Nat → Bool)
    (uid : Int) (msgId : Nat) (w : World) (t : String)
    (hst : w.session.state = some .AskBirthday)
    (hne : t ≠ "") (hcmd : isCmdText "start" t = false) :
    (valid_date t = false →
      step mainAdmin oracle uid msgId w (.msg ⟨some t, none, none, none, none⟩) =
        { noEffect w with
            outs := [Out.answerText "Tug'ilgan kuningizni 01.01.2000 formatda yozing."] }) ∧
    (valid_date t = true →
      step mainAdmin oracle uid msgId w (.msg ⟨some t, none, none, none, none⟩) =
        { noEffect w with
            session := { w.session with
                state := some .AskEducation,
                answers := dictInsert w.session.answers "Tug'ilgan sana" (pyStrip t) },
            outs := [Out.answerText "Ma'lumotingiz:"] }) := by
  constructor <;> intro hv <;>
    simp [step, isStartTxt, hcmd, hst, ask_education, beq_empty_false hne, hv]

/-- Witness for the amended C7, at the concrete invalid date
`"31.02.2020"` in a concrete `AskBirthday` session. -/
theorem claim7_askbirthday_behavior_witness :
    (("31.02.2020" : String) ≠ "" ∧ isCmdText "start" "31.02.2020" = false ∧
     valid_date "31.02.2020" = false) ∧
    step 111 (fun _ _ => true) 999 55
        ⟨⟨some .AskBirthday, [("Ish turi", "Sotuvchi")], none⟩,
         .parsed (.obj []), .parsed (.obj [("admins", Json.arr [Json.num 111])])⟩
        (.msg ⟨some "31.02.2020", none, none, none, none⟩) =
      { noEffect ⟨⟨some .AskBirthday, [("Ish turi", "Sotuvchi")], none⟩,
          .parsed (.obj []), .parsed (.obj [("admins", Json.arr [Json.num 111])])⟩ with
          outs := [Out.answerText "Tug'ilgan kuningizni 01.01.2000 formatda yozing."] } :=
  ⟨⟨by decide, by decide, by decide⟩,
    (claim7_askbirthday_behavior 111 (fun _ _ => true) 999 55
      ⟨⟨some .AskBirthday, [("Ish turi", "Sotuvchi")], none⟩,
       .parsed (.obj []), .parsed (.obj [("admins", Json.arr [Json.num 111])])⟩
      "31.02.2020" rfl (by decide) (by decide)).1 (by decide)⟩

/-! ### Claim C8 -/

lemma deliverFrom_all {ok : Nat → Bool} (hok : ∀ n, ok n = true) :
    ∀ (n : Nat) (items : List Payload), deliverFrom ok n items = items := by
  intro n items
  induction items generalizing n with
  | nil => rfl
  | cons p ps ih => simp [deliverFrom, hok, ih]

lemma fanOut_mem (oracle : Json → Nat → Bool) (admins : List Json)
    (items : List Payload) (a : Json) (ha : a ∈ admins)
    (hok : ∀ n, oracle a n = true) :
    ∃ before after, fanOut oracle admins items =
      before ++ items.map (fun p => (a, p)) ++ after := by
  induction admins with
  | nil => cases ha
  | cons b bs ih =>
    rcases List.mem_cons.mp ha with hab | hmem
    · subst hab
      refine ⟨[], fanOut oracle bs items, ?_⟩
      simp [fanOut, deliverFrom_all hok]
    · obtain ⟨before, after, heq⟩ := ih hmem
      refine ⟨(deliverFrom (oracle b) 0 items).map (fun p => (b, p)) ++ before, after, ?_⟩
      simp only [fanOut, List.flatMap_cons] at heq ⊢
      rw [heq]
      simp [List.append_assoc]

/-- Claim C8: at `AskCourses`, on the final (plain-text) answer, with a
readable admin registry `r`: the handler never errors, the submitting user
receives the acceptance confirmation whatever the delivery oracle does,
and every administrator all of whose sends succeed receives — as one
contiguous block of the fan-out — the text report first, then the captured
voice reference, then the captured video reference (each attachment only
when present among the answers). -/
theorem claim8_fanout (mainAdmin : Int) (oracle : Json → Nat → Bool)
    (uid : Int) (msgId : Nat) (w : World) (t : String) (r : AdminsRead)
    (hst : w.session.state = some .AskCourses)
    (hcmd : isCmdText "start" t = false)
    (hadm : get_admins mainAdmin w.admins = .ok r) :
    (step mainAdmin oracle uid msgId w (.msg ⟨some t, none, none, none, none⟩)).err = none ∧
    (step mainAdmin oracle uid msgId w (.msg ⟨some t, none, none, none, none⟩)).outs =
      [Out.answerText "Ma'lumotlaringiz qabul qilindi. Tez orada xabarini beramiz!"] ∧
    (∀ a ∈ r.admins, (∀ n, oracle a n = true) →
      ∃ before after,
        (step mainAdmin oracle uid msgId w (.msg ⟨some t, none, none, none, none⟩)).adminSends =
          before ++
          (adminBlock (dictInsert w.session.answers "Kurslar" (pyStrip t))
            (String.intercalate "\n"
              (composeReport uid (dictInsert w.session.answers "Kurslar" (pyStrip t))))).map
            (fun p => (a, p)) ++
          after) := by
  refine ⟨?_, ?_, ?_⟩
  · simp [step, isStartTxt, hcmd, hst, finish_form, hadm]
  · simp [step, isStartTxt, hcmd, hst, finish_form, hadm]
  · intro a ha hok
    have hsends :
        (step mainAdmin oracle uid msgId w (.msg ⟨some t, none, none, none, none⟩)).adminSends =
          fanOut oracle r.admins
            (adminBlock (dictInsert w.session.answers "Kurslar" (pyStrip t))
              (String.intercalate "\n"
                (composeReport uid (dictInsert w.session.answers "Kurslar" (pyStrip t))))) := by
      simp [step, isStartTxt, hcmd, hst, finish_form, hadm]
    rw [hsends]
    exact fanOut_mem oracle r.admins _ a ha hok

/-- Witness for C8: a concrete `AskCourses` session, two admins, the
all-success oracle, and membership of the second admin. -/
theorem claim8_fanout_witness :
    (some FormState.AskCourses = some FormState.AskCourses ∧
     isCmdText "start" "Kurs" = false ∧
     get_admins 111 (Store.parsed (Json.obj [("admins", Json.arr [Json.num 111, Json.num 222])])) =
       Except.ok ⟨[Json.num 111, Json.num 222],
         Store.parsed (Json.obj [("admins", Json.arr [Json.num 111, Json.num 222])]), false⟩) ∧
    ((step 111 (fun _ _ => true) 999 55
        ⟨⟨some .AskCourses, [("Ish turi", "Sotuvchi")], none⟩,
         .parsed (.obj []), .parsed (.obj [("admins", Json.arr [Json.num 111, Json.num 222])])⟩
        (.msg ⟨some "Kurs", none, none, none, none⟩)).err = none ∧
     (∃ before after,
        (step 111 (fun _ _ => true) 999 55
          ⟨⟨some .AskCourses, [("Ish turi", "Sotuvchi")], none⟩,
           .parsed (.obj []), .parsed (.obj [("admins", Json.arr [Json.num 111, Json.num 222])])⟩
          (.msg ⟨some "Kurs", none, none, none, none⟩)).adminSends =
          before ++
          (adminBlock (dictInsert [("Ish turi", "Sotuvchi")] "Kurslar" (pyStrip "Kurs"))
            (String.intercalate "\n"
              (composeReport 999 (dictInsert [("Ish turi", "Sotuvchi")] "Kurslar" (pyStrip "Kurs"))))).map
            (fun p => (Json.num 222, p)) ++
          after)) := by
  have h := claim8_fanout 111 (fun _ _ => true) 999 55
    ⟨⟨some .AskCourses, [("Ish turi", "Sotuvchi")], none⟩,
     .parsed (.obj []), .parsed (.obj [("admins", Json.arr [Json.num 111, Json.num 222])])⟩
    "Kurs"
    ⟨[Json.num 111, Json.num 222],
     Store.parsed (Json.obj [("admins", Json.arr [Json.num 111, Json.num 222])]), false⟩
    rfl (by decide) rfl
  exact ⟨⟨rfl, by decide, rfl⟩,
         h.1, h.2.2 (Json.num 222) (by simp) (fun n => rfl)⟩

/-! ### Claim C2: the full flow -/

/-- A text message event. -/
def msgText (t : String) : Event := Event.msg ⟨some t, none, none, none, none⟩

/-- A voice message event. -/
def msgVoice (fid : String) : Event := Event.msg ⟨none, none, some fid, none, none⟩

/-- A video message event. -/
def msgVideo (fid : String) : Event := Event.msg ⟨none, none, none, some fid, none⟩

/-- An expected plain free-text answer: non-empty and not a `/start`
command (which the router would intercept before the state handler). -/
def plainAnswer (t : String) : Prop := t ≠ "" ∧ isCmdText "start" t = false

/-- The flow-order inputs from the job choice up to (excluding) the final
courses answer: 21 events. -/
def script21 (job name phone addr bday edu expr mar vfid ruv vidfid cons refr
    dur ovr heal late steal gbad psal dsal : String) : List Event :=
  [Event.callback ("job:" ++ job), msgText name, msgText phone, msgText addr,
   msgText bday, Event.callback ("edu:" ++ edu), msgText expr,
   Event.callback ("marital:" ++ mar), msgVoice vfid,
   Event.callback ("ru:" ++ ruv), msgVideo vidfid,
   Event.callback ("yn:" ++ cons), msgText refr, msgText dur, msgText ovr,
   msgText heal, msgText late, msgText steal, msgText gbad, msgText psal,
   msgText dsal]

/-- The 21 captured answers after `script21`, in capture order. -/
def answers21 (job name phone addr bday edu expr mar vfid ruv vidfid cons refr
    dur ovr heal late steal gbad psal dsal : String) : List (String × String) :=
  [("Ish turi", job), ("Ism-familiya", pyStrip name),
   ("Telefon raqami", pyStrip phone), ("Manzil (propiska)", pyStrip addr),
   ("Tug'ilgan sana", pyStrip bday), ("Ma'lumoti", edu),
   ("Ish tajribasi", pyStrip expr), ("Oilaviy holat", mar),
   ("Ovozli javob (file_id)", vfid), ("Rus tili darajasi", ruv),
   ("Video javob (file_id)", vidfid), ("Surishtirish roziligi", cons),
   ("Tavsiyanoma beruvchi", pyStrip refr),
   ("Qancha muddat ishlamoqchi", pyStrip dur),
   ("Ishdan keyin qolishga rozilik", pyStrip ovr),
   ("Sog'liq holati", pyStrip heal), ("Nega kech kelishadi", pyStrip late),
   ("Nega o'g'rilik qilishadi", pyStrip steal),
   ("Yaxshi-yomon ish sababi", pyStrip gbad), ("Oldingi maosh", pyStrip psal),
   ("Kutilgan maosh", pyStrip dsal)]

set_option maxHeartbeats 1600000 in
lemma runEvents_script21 (mainAdmin : Int) (oracle : Json → Nat → Bool)
    (uid : Int) (msgId : Nat) (w : World) (mf : List (String × Json))
    (job name phone addr bday edu expr mar vfid ruv vidfid cons refr dur ovr
      heal late steal gbad psal dsal : String)
    (hst : w.session.state = some .ChooseJob)
    (hmedia : get_media w.media = Except.ok mf)
    (hname : plainAnswer name) (hphone : plainAnswer phone)
    (haddr : plainAnswer addr) (hbday : plainAnswer bday)
    (hvd : valid_date bday = true) (hexpr : plainAnswer expr)
    (hrefr : plainAnswer refr) (hdur : plainAnswer dur) (hovr : plainAnswer ovr)
    (hheal : plainAnswer heal) (hlate : plainAnswer late)
    (hsteal : plainAnswer steal) (hgbad : plainAnswer gbad)
    (hpsal : plainAnswer psal) (hdsal : plainAnswer dsal) :
    runEvents mainAdmin oracle uid msgId w
      (script21 job name phone addr bday edu expr mar vfid ruv vidfid cons refr
        dur ovr heal late steal gbad psal dsal) =
    ⟨⟨some .AskCourses,
      answers21 job name phone addr bday edu expr mar vfid ruv vidfid cons refr
        dur ovr heal late steal gbad psal dsal,
      w.session.introMsgId⟩, w.media, w.admins⟩ := by
  simp only [script21, answers21, runEvents, resWorld, noEffect, step, isStartTxt,
    msgText, msgVoice, msgVideo,
    hst, hmedia, hvd,
    hname.2, hphone.2, haddr.2, hbday.2, hexpr.2, hrefr.2, hdur.2, hovr.2,
    hheal.2, hlate.2, hsteal.2, hgbad.2, hpsal.2, hdsal.2,
    beq_empty_false hname.1, beq_empty_false hphone.1, beq_empty_false haddr.1,
    beq_empty_false hbday.1, beq_empty_false hexpr.1, beq_empty_false hrefr.1,
    beq_empty_false hdur.1, beq_empty_false hovr.1, beq_empty_false hheal.1,
    beq_empty_false hlate.1, beq_empty_false hsteal.1, beq_empty_false hgbad.1,
    beq_empty_false hpsal.1, beq_empty_false hdsal.1,
    cbPre_job, cbPre_edu, cbPre_marital, cbPre_ru, cbPre_yn,
    afterColon_job, afterColon_edu, afterColon_marital, afterColon_ru, afterColon_yn,
    on_job_choice, ask_phone, phone_via_contact, phone_manual, ask_birthday,
    ask_education, ask_experience, ask_marital, send_voice_prompt,
    ask_russian_level, send_video_prompt, ask_consent, ask_reference,
    ask_duration, ask_overtime, ask_health, ask_whylate, ask_whysteal,
    ask_whygoodbad, ask_prev_salary, ask_desired_salary, ask_courses,
    guardedText, unguardedText, cmdFallback, textTruthy, bne,
    dictInsert, List.any_cons, List.any_nil, String.reduceBEq,
    Bool.or_false, Bool.false_or, Bool.true_or, Bool.not_false,
    Bool.false_eq_true, if_true, if_false,
    List.cons_append, List.nil_append,
    Option.isSome_none, Option.isSome_some, Option.getD_some]

/-- The 22 capture labels of a completed flow, in capture order. -/
def labels22 : List String :=
  ["Ish turi", "Ism-familiya", "Telefon raqami", "Manzil (propiska)",
   "Tug'ilgan sana", "Ma'lumoti", "Ish tajribasi", "Oilaviy holat",
   "Ovozli javob (file_id)", "Rus tili darajasi", "Video javob (file_id)",
   "Surishtirish roziligi", "Tavsiyanoma beruvchi", "Qancha muddat ishlamoqchi",
   "Ishdan keyin qolishga rozilik", "Sog'liq holati", "Nega kech kelishadi",
   "Nega o'g'rilik qilishadi", "Yaxshi-yomon ish sababi", "Oldingi maosh",
   "Kutilgan maosh", "Kurslar"]

/-- Claim C2: a session at `ChooseJob` fed the 22 expected inputs in flow
order captures the 22 answers in order under the 22 distinct `labels22`
(no duplicate, none omitted), and the final report is the requestor
identity header, then the name answer, then the job-type answer, then
every remaining answer in capture order. -/
theorem claim2_report (mainAdmin : Int) (oracle : Json → Nat → Bool)
    (uid : Int) (msgId : Nat) (w : World) (mf : List (String × Json))
    (r : AdminsRead)
    (job name phone addr bday edu expr mar vfid ruv vidfid cons refr dur ovr
      heal late steal gbad psal dsal crs : String)
    (hst : w.session.state = some .ChooseJob)
    (hmedia : get_media w.media = Except.ok mf)
    (hadm : get_admins mainAdmin w.admins = Except.ok r)
    (hname : plainAnswer name) (hphone : plainAnswer phone)
    (haddr : plainAnswer addr) (hbday : plainAnswer bday)
    (hvd : valid_date bday = true) (hexpr : plainAnswer expr)
    (hrefr : plainAnswer refr) (hdur : plainAnswer dur) (hovr : plainAnswer ovr)
    (hheal : plainAnswer heal) (hlate : plainAnswer late)
    (hsteal : plainAnswer steal) (hgbad : plainAnswer gbad)
    (hpsal : plainAnswer psal) (hdsal : plainAnswer dsal)
    (hcrs : plainAnswer crs) :
    (runEvents mainAdmin oracle uid msgId w
        (script21 job name phone addr bday edu expr mar vfid ruv vidfid cons
          refr dur ovr heal late steal gbad psal dsal)).session.answers =
      answers21 job name phone addr bday edu expr mar vfid ruv vidfid cons refr
        dur ovr heal late steal gbad psal dsal ∧
    (answers21 job name phone addr bday edu expr mar vfid ruv vidfid cons refr
        dur ovr heal late steal gbad psal dsal ++
      [("Kurslar", pyStrip crs)]).map Prod.fst = labels22 ∧
    labels22.Nodup ∧
    (step mainAdmin oracle uid msgId
        (runEvents mainAdmin oracle uid msgId w
          (script21 job name phone addr bday edu expr mar vfid ruv vidfid cons
            refr dur ovr heal late steal gbad psal dsal))
        (msgText crs)).err = none ∧
    (step mainAdmin oracle uid msgId
        (runEvents mainAdmin oracle uid msgId w
          (script21 job name phone addr bday edu expr mar vfid ruv vidfid cons
            refr dur ovr heal late steal gbad psal dsal))
        (msgText crs)).report =
      some
        [("üìù Yangi ariza #" ++ toString uid),
         ("F.I.Sh: " ++ pyStrip name),
         ("Ish turi: " ++ job),
         ("Telefon raqami" ++ ": " ++ pyStrip phone),
         ("Manzil (propiska)" ++ ": " ++ pyStrip addr),
         ("Tug'ilgan sana" ++ ": " ++ pyStrip bday),
         ("Ma'lumoti" ++ ": " ++ edu),
         ("Ish tajribasi" ++ ": " ++ pyStrip expr),
         ("Oilaviy holat" ++ ": " ++ mar),
         ("Ovozli javob (file_id)" ++ ": " ++ vfid),
         ("Rus tili darajasi" ++ ": " ++ ruv),
         ("Video javob (file_id)" ++ ": " ++ vidfid),
         ("Surishtirish roziligi" ++ ": " ++ cons),
         ("Tavsiyanoma beruvchi" ++ ": " ++ pyStrip refr),
         ("Qancha muddat ishlamoqchi" ++ ": " ++ pyStrip dur),
         ("Ishdan keyin qolishga rozilik" ++ ": " ++ pyStrip ovr),
         ("Sog'liq holati" ++ ": " ++ pyStrip heal),
         ("Nega kech kelishadi" ++ ": " ++ pyStrip late),
         ("Nega o'g'rilik qilishadi" ++ ": " ++ pyStrip steal),
         ("Yaxshi-yomon ish sababi" ++ ": " ++ pyStrip gbad),
         ("Oldingi maosh" ++ ": " ++ pyStrip psal),
         ("Kutilgan maosh" ++ ": " ++ pyStrip dsal),
         ("Kurslar" ++ ": " ++ pyStrip crs)] := by
  have hrun := runEvents_script21 mainAdmin oracle uid msgId w mf job name phone
    addr bday edu expr mar vfid ruv vidfid cons refr dur ovr heal late steal
    gbad psal dsal hst hmedia hname hphone haddr hbday hvd hexpr hrefr hdur
    hovr hheal hlate hsteal hgbad hpsal hdsal
  rw [hrun]
  refine ⟨rfl, by simp [answers21, labels22], by decide, ?_, ?_⟩ <;>
    simp only [msgText, step, isStartTxt, hcrs.2, Bool.false_eq_true, if_false,
      finish_form, hadm, answers21, composeReport, reportRest, dictGet,
      dictInsert, List.any_cons, List.any_nil, String.reduceBEq, Bool.or_false,
      Bool.false_or, Bool.true_or, Bool.not_false, if_true,
      List.cons_append, List.nil_append, Option.getD_some, noEffect]

/-- Witness for C2: the spec's end-to-end scenario, with concrete inputs,
a fresh media store and a one-admin registry. -/
theorem claim2_report_witness :
    (get_media (Store.parsed (Json.obj [])) =
      Except.ok [("intro_video_file_id", Json.null),
        ("voice_prompt_file_id", Json.null),
        ("russian_video_prompt_file_id", Json.null)] ∧
     get_admins 111 (Store.parsed (Json.obj [("admins", Json.arr [Json.num 111])])) =
      Except.ok ⟨[Json.num 111],
        Store.parsed (Json.obj [("admins", Json.arr [Json.num 111])]), false⟩ ∧
     plainAnswer "Ali Valiyev" ∧ valid_date "15.06.1995" = true) ∧
    ((step 111 (fun _ _ => true) 999 55
        (runEvents 111 (fun _ _ => true) 999 55
          ⟨⟨some .ChooseJob, [], none⟩, Store.parsed (Json.obj []),
           Store.parsed (Json.obj [("admins", Json.arr [Json.num 111])])⟩
          (script21 "Sotuvchi" "Ali Valiyev" "+998901234567" "Tashkent"
            "15.06.1995" "oliy" "5 yil" "oilaliman" "VOICE1" "yaxshi" "VID1"
            "ha" "Direktor" "3 yil" "ha" "yaxshi" "uxlab" "pul" "sabab" "2mln"
            "3mln"))
        (msgText "Kurs")).err = none ∧
     (step 111 (fun _ _ => true) 999 55
        (runEvents 111 (fun _ _ => true) 999 55
          ⟨⟨some .ChooseJob, [], none⟩, Store.parsed (Json.obj []),
           Store.parsed (Json.obj [("admins", Json.arr [Json.num 111])])⟩
          (script21 "Sotuvchi" "Ali Valiyev" "+998901234567" "Tashkent"
            "15.06.1995" "oliy" "5 yil" "oilaliman" "VOICE1" "yaxshi" "VID1"
            "ha" "Direktor" "3 yil" "ha" "yaxshi" "uxlab" "pul" "sabab" "2mln"
            "3mln"))
        (msgText "Kurs")).report =
      some
        [("üìù Yangi ariza #" ++ toString (999 : Int)),
         ("F.I.Sh: " ++ pyStrip "Ali Valiyev"),
         ("Ish turi: " ++ "Sotuvchi"),
         ("Telefon raqami" ++ ": " ++ pyStrip "+998901234567"),
         ("Manzil (propiska)" ++ ": " ++ pyStrip "Tashkent"),
         ("Tug'ilgan sana" ++ ": " ++ pyStrip "15.06.1995"),
         ("Ma'lumoti" ++ ": " ++ "oliy"),
         ("Ish tajribasi" ++ ": " ++ pyStrip "5 yil"),
         ("Oilaviy holat" ++ ": " ++ "oilaliman"),
         ("Ovozli javob (file_id)" ++ ": " ++ "VOICE1"),
         ("Rus tili darajasi" ++ ": " ++ "yaxshi"),
         ("Video javob (file_id)" ++ ": " ++ "VID1"),
         ("Surishtirish roziligi" ++ ": " ++ "ha"),
         ("Tavsiyanoma beruvchi" ++ ": " ++ pyStrip "Direktor"),
         ("Qancha muddat ishlamoqchi" ++ ": " ++ pyStrip "3 yil"),
         ("Ishdan keyin qolishga rozilik" ++ ": " ++ pyStrip "ha"),
         ("Sog'liq holati" ++ ": " ++ pyStrip "yaxshi"),
         ("Nega kech kelishadi" ++ ": " ++ pyStrip "uxlab"),
         ("Nega o'g'rilik qilishadi" ++ ": " ++ pyStrip "pul"),
         ("Yaxshi-yomon ish sababi" ++ ": " ++ pyStrip "sabab"),
         ("Oldingi maosh" ++ ": " ++ pyStrip "2mln"),
         ("Kutilgan maosh" ++ ": " ++ pyStrip "3mln"),
         ("Kurslar" ++ ": " ++ pyStrip "Kurs")]) := by
  have h := claim2_report 111 (fun _ _ => true) 999 55
    ⟨⟨some .ChooseJob, [], none⟩, Store.parsed (Json.obj []),
     Store.parsed (Json.obj [("admins", Json.arr [Json.num 111])])⟩
    [("intro_video_file_id", Json.null), ("voice_prompt_file_id", Json.null),
     ("russian_video_prompt_file_id", Json.null)]
    ⟨[Json.num 111], Store.parsed (Json.obj [("admins", Json.arr [Json.num 111])]), false⟩
    "Sotuvchi" "Ali Valiyev" "+998901234567" "Tashkent" "15.06.1995" "oliy"
    "5 yil" "oilaliman" "VOICE1" "yaxshi" "VID1" "ha" "Direktor" "3 yil" "ha"
    "yaxshi" "uxlab" "pul" "sabab" "2mln" "3mln" "Kurs"
    rfl rfl rfl
    ⟨by decide, by decide⟩ ⟨by decide, by decide⟩ ⟨by decide, by decide⟩
    ⟨by decide, by decide⟩ (by decide) ⟨by decide, by decide⟩
    ⟨by decide, by decide⟩ ⟨by decide, by decide⟩ ⟨by decide, by decide⟩
    ⟨by decide, by decide⟩ ⟨by decide, by decide⟩ ⟨by decide, by decide⟩
    ⟨by decide, by decide⟩ ⟨by decide, by decide⟩ ⟨by decide, by decide⟩
    ⟨by decide, by decide⟩
  exact ⟨⟨rfl, rfl, ⟨by decide, by decide⟩, by decide⟩, h.2.2.2.1, h.2.2.2.2⟩

/-! ### Claim C9: restart resets the session -/

/-- The world of a user with no active session (what `state.clear()`
leaves, and what a brand-new user has). -/
def freshWorld (w : World) : World := ⟨⟨none, [], none⟩, w.media, w.admins⟩

/-- Bisimulation relation for C9: the two worlds are equal, or both sit at
`ChooseJob` and differ only in the stale `answers` still held in the FSM
data (with a readable media store, so a repeated `/start` behaves
identically in both). -/
def Twin (w1 w2 : World) : Prop :=
  w1 = w2 ∨
  (w1.session.state = some .ChooseJob ∧ w2.session.state = some .ChooseJob ∧
   w2.session.introMsgId = w1.session.introMsgId ∧
   w2.media = w1.media ∧ w2.admins = w1.admins ∧
   ∃ mf, get_media w1.media = Except.ok mf)

lemma twin_step (mainAdmin : Int) (oracle : Json → Nat → Bool) (uid : Int)
    (msgId : Nat) (w1 w2 : World) (e : Event) (h : Twin w1 w2) :
    obsOf (step mainAdmin oracle uid msgId w1 e) =
      obsOf (step mainAdmin oracle uid msgId w2 e) ∧
    Twin (resWorld (step mainAdmin oracle uid msgId w1 e))
         (resWorld (step mainAdmin oracle uid msgId w2 e)) := by
  rcases h with rfl | ⟨h1, h2, h3, h4, h5, mf, hm⟩
  · exact ⟨rfl, Or.inl rfl⟩
  rcases w1 with ⟨⟨st1, ans1, im1⟩, med1, adm1⟩
  rcases w2 with ⟨⟨st2, ans2, im2⟩, med2, adm2⟩
  simp only at h1 h2 h3 h4 h5 hm
  subst h1 h2 h3 h4 h5
  cases e with
  | callback d =>
    cases hcb : cbPre "job" d with
    | false =>
      refine ⟨by simp [step, obsOf, hcb, noEffect], ?_⟩
      right
      exact ⟨by simp [step, hcb, noEffect, resWorld],
             by simp [step, hcb, noEffect, resWorld],
             by simp [step, hcb, noEffect, resWorld],
             by simp [step, hcb, noEffect, resWorld],
             by simp [step, hcb, noEffect, resWorld],
             mf, by simpa [step, hcb, noEffect, resWorld] using hm⟩
    | true =>
      refine ⟨by simp [step, obsOf, hcb, on_job_choice, noEffect], ?_⟩
      left
      simp [step, hcb, on_job_choice, noEffect, resWorld]
  | msg m =>
    rcases m with ⟨mt, mc, mv, mvd, mvn⟩
    cases hstart : isStartTxt mt with
    | true =>
      refine ⟨by simp [step, obsOf, hstart, on_start, hm, noEffect], ?_⟩
      right
      refine ⟨by simp [step, hstart, on_start, hm, noEffect, resWorld],
              by simp [step, hstart, on_start, hm, noEffect, resWorld],
              by simp [step, hstart, on_start, hm, noEffect, resWorld],
              by simp [step, hstart, on_start, hm, noEffect, resWorld],
              by simp [step, hstart, on_start, hm, noEffect, resWorld],
              mf, ?_⟩
      simp [step, hstart, on_start, hm, noEffect, resWorld]
    | false =>
      cases mt with
      | none =>
        refine ⟨by simp [step, obsOf, isStartTxt, cmdFallback, noEffect], ?_⟩
        right
        exact ⟨by simp [step, isStartTxt, cmdFallback, noEffect, resWorld],
               by simp [step, isStartTxt, cmdFallback, noEffect, resWorld],
               by simp [step, isStartTxt, cmdFallback, noEffect, resWorld],
               by simp [step, isStartTxt, cmdFallback, noEffect, resWorld],
               by simp [step, isStartTxt, cmdFallback, noEffect, resWorld],
               mf, by simpa [step, isStartTxt, cmdFallback, noEffect, resWorld] using hm⟩
      | some t =>
        cases hc : isCmdText "cancel" t with
        | true =>
          refine ⟨by simp [step, obsOf, hstart, cmdFallback, hc, cancel, noEffect], ?_⟩
          left
          simp [step, hstart, cmdFallback, hc, cancel, noEffect, resWorld]
        | false =>
          refine ⟨by simp [step, obsOf, hstart, cmdFallback, hc, noEffect], ?_⟩
          right
          exact ⟨by simp [step, hstart, cmdFallback, hc, noEffect, resWorld],
                 by simp [step, hstart, cmdFallback, hc, noEffect, resWorld],
                 by simp [step, hstart, cmdFallback, hc, noEffect, resWorld],
                 by simp [step, hstart, cmdFallback, hc, noEffect, resWorld],
                 by simp [step, hstart, cmdFallback, hc, noEffect, resWorld],
                 mf, by simpa [step, hstart, cmdFallback, hc, noEffect, resWorld] using hm⟩

lemma twin_trace (mainAdmin : Int) (oracle : Json → Nat → Bool) (uid : Int)
    (msgId : Nat) (evs : List Event) :
    ∀ (w1 w2 : World), Twin w1 w2 →
      obsTrace mainAdmin oracle uid msgId w1 evs =
        obsTrace mainAdmin oracle uid msgId w2 evs := by
  induction evs with
  | nil => intro w1 w2 _; rfl
  | cons e es ih =>
    intro w1 w2 h
    obtain ⟨hobs, htwin⟩ := twin_step mainAdmin oracle uid msgId w1 w2 e h
    simp only [obsTrace]
    rw [hobs, ih _ _ htwin]

/-- Claim C9: issuing `/start` in a session with an active state and a
non-empty answers map behaves, observably, exactly like issuing `/start`
with no session at all: every outbound action, admin delivery, composed
report and error of the whole continuation is identical to the fresh-
session run.  In particular the answers accumulated after the restart and
any eventual final report contain no entry captured before it. -/
theorem claim9_restart (mainAdmin : Int) (oracle : Json → Nat → Bool)
    (uid : Int) (msgId : Nat) (w : World) (st : FormState)
    (mf : List (String × Json)) (evs : List Event)
    (hactive : w.session.state = some st)
    (hnonempty : w.session.answers ≠ [])
    (hmedia : get_media w.media = Except.ok mf) :
    obsTrace mainAdmin oracle uid msgId w (msgText "/start" :: evs) =
      obsTrace mainAdmin oracle uid msgId (freshWorld w) (msgText "/start" :: evs) := by
  have hs : isStartTxt (some "/start") = true := by decide
  simp only [obsTrace]
  have hobs : obsOf (step mainAdmin oracle uid msgId w (msgText "/start")) =
      obsOf (step mainAdmin oracle uid msgId (freshWorld w) (msgText "/start")) := by
    simp [step, msgText, hs, on_start, hmedia, freshWorld, obsOf, noEffect]
  have htwin : Twin (resWorld (step mainAdmin oracle uid msgId w (msgText "/start")))
      (resWorld (step mainAdmin oracle uid msgId (freshWorld w) (msgText "/start"))) := by
    right
    refine ⟨by simp [step, msgText, hs, on_start, hmedia, freshWorld, resWorld, noEffect],
            by simp [step, msgText, hs, on_start, hmedia, freshWorld, resWorld, noEffect],
            by simp [step, msgText, hs, on_start, hmedia, freshWorld, resWorld, noEffect],
            by simp [step, msgText, hs, on_start, hmedia, freshWorld, resWorld, noEffect],
            by simp [step, msgText, hs, on_start, hmedia, freshWorld, resWorld, noEffect],
            mf, ?_⟩
    simp [step, msgText, hs, on_start, hmedia, freshWorld, resWorld, noEffect]
  rw [hobs, twin_trace mainAdmin oracle uid msgId evs _ _ htwin]

/-- Witness for C9: a session stuck at `AskName` with one stale answer,
restarted and then driven through a job choice. -/
theorem claim9_restart_witness :
    ((⟨⟨some .AskName, [("Ish turi", "Sotuvchi")], none⟩, Store.parsed (Json.obj []),
        Store.parsed (Json.obj [("admins", Json.arr [Json.num 111])])⟩ : World).session.state =
      some FormState.AskName ∧
     (⟨⟨some .AskName, [("Ish turi", "Sotuvchi")], none⟩, Store.parsed (Json.obj []),
        Store.parsed (Json.obj [("admins", Json.arr [Json.num 111])])⟩ : World).session.answers ≠ [] ∧
     get_media (Store.parsed (Json.obj [])) =
      Except.ok [("intro_video_file_id", Json.null), ("voice_prompt_file_id", Json.null),
        ("russian_video_prompt_file_id", Json.null)]) ∧
    obsTrace 111 (fun _ _ => true) 999 55
        ⟨⟨some .AskName, [("Ish turi", "Sotuvchi")], none⟩, Store.parsed (Json.obj []),
         Store.parsed (Json.obj [("admins", Json.arr [Json.num 111])])⟩
        (msgText "/start" :: [Event.callback "job:Kassir"]) =
      obsTrace 111 (fun _ _ => true) 999 55
        (freshWorld ⟨⟨some .AskName, [("Ish turi", "Sotuvchi")], none⟩,
          Store.parsed (Json.obj []),
          Store.parsed (Json.obj [("admins", Json.arr [Json.num 111])])⟩)
        (msgText "/start" :: [Event.callback "job:Kassir"]) :=
  ⟨⟨rfl, by decide, rfl⟩,
    claim9_restart 111 (fun _ _ => true) 999 55
      ⟨⟨some .AskName, [("Ish turi", "Sotuvchi")], none⟩, Store.parsed (Json.obj []),
       Store.parsed (Json.obj [("admins", Json.arr [Json.num 111])])⟩
      .AskName
      [("intro_video_file_id", Json.null), ("voice_prompt_file_id", Json.null),
       ("russian_video_prompt_file_id", Json.null)]
      [Event.callback "job:Kassir"] rfl (by decide) rfl⟩

/-! ### Claims C4, C5, C6, C10: the admin registry -/

/-- One admin-registry operation (for the operation sequences of C4). -/
inductive AdminOp where
  | add (uid : Int)
  | remove (uid : Int)
  | get

/-- Run one registry operation, keeping the store it leaves behind. -/
def runAdminOp (mainAdmin : Int) (store : Store) : AdminOp → Except PyErr Store
  | .add uid => (add_admin mainAdmin uid store).map OpResult.store
  | .remove uid => (remove_admin mainAdmin uid store).map OpResult.store
  | .get => (get_admins mainAdmin store).map AdminsRead.store

/-- Run a sequence of registry operations, stopping at the first raise. -/
def runAdminOps (mainAdmin : Int) : List AdminOp → Store → Except PyErr Store
  | [], store => .ok store
  | op :: ops, store =>
    match runAdminOp mainAdmin store op with
    | .ok store2 => runAdminOps mainAdmin ops store2
    | .error e => .error e

/-- The registry state C4 starts from: the persisted record is a JSON
object whose `admins` field holds a list containing the main
administrator. -/
def AdminInv (mainAdmin : Int) (store : Store) : Prop :=
  ∃ fields elems, store = Store.parsed (Json.obj fields) ∧
    olookup "admins" fields = some (Json.arr elems) ∧
    jmemInt mainAdmin elems = true

lemma olookup_oset_self (k : String) (v : Json) (fields : List (String × Json)) :
    olookup k (oset k v fields) = some v := by
  induction fields with
  | nil => simp [oset, olookup]
  | cons p rest ih =>
    rcases p with ⟨k2, v2⟩
    by_cases h : (k2 == k) = true
    · simp [oset, olookup, h]
    · simp only [oset, olookup, h, Bool.false_eq_true, if_false]
      simpa [olookup, h] using ih

lemma jmemInt_append_left (n : Int) (l2 : List Json) :
    ∀ l1, jmemInt n l1 = true → jmemInt n (l1 ++ l2) = true := by
  intro l1
  induction l1 with
  | nil => intro h; simp [jmemInt] at h
  | cons v rest ih =>
    intro h
    cases v <;>
      first
      | (simp only [List.cons_append, jmemInt] at h ⊢; exact ih h)
      | (simp only [List.cons_append, jmemInt, Bool.or_eq_true] at h ⊢
         rcases h with h | h
         · exact Or.inl h
         · exact Or.inr (ih h))

lemma jmemInt_append_main (n : Int) : ∀ l, jmemInt n (l ++ [Json.num n]) = true := by
  intro l
  induction l with
  | nil => simp [jmemInt]
  | cons v rest ih => cases v <;> simp [jmemInt, ih]

lemma jmemInt_remove_ne (n uid : Int) (hne : n ≠ uid) :
    ∀ l, jmemInt n (jremoveInt uid l) = jmemInt n l := by
  intro l
  induction l with
  | nil => rfl
  | cons v rest ih =>
    cases v with
    | num m =>
      by_cases hm : (m == uid) = true
      · have hmu : m = uid := beq_iff_eq.mp hm
        have hfalse : (m == n) = false := by
          rw [beq_eq_false_iff_ne]
          intro hc
          exact hne (hc ▸ hmu)
        simp [jremoveInt, hm, jmemInt, hfalse]
      · simp [jremoveInt, hm, jmemInt, ih]
    | null => simp [jremoveInt, jmemInt, ih]
    | bool b => simp [jremoveInt, jmemInt, ih]
    | str s => simp [jremoveInt, jmemInt, ih]
    | arr l2 => simp [jremoveInt, jmemInt, ih]
    | obj l2 => simp [jremoveInt, jmemInt, ih]

lemma jmemInt_ne_nil {n : Int} {l : List Json} (h : jmemInt n l = true) : l ≠ [] := by
  intro hnil
  subst hnil
  simp [jmemInt] at h

lemma adminInv_get (mainAdmin : Int) (store : Store)
    (h : AdminInv mainAdmin store) :
    ∃ r, get_admins mainAdmin store = .ok r ∧ r.store = store ∧
      jmemInt mainAdmin r.admins = true := by
  obtain ⟨fields, elems, rfl, hlook, hmem⟩ := h
  exact ⟨⟨elems, Store.parsed (Json.obj fields), false⟩,
    by simp [get_admins, load_json, hlook, hmem], rfl, hmem⟩

lemma adminInv_add (mainAdmin uid : Int) (store : Store)
    (h : AdminInv mainAdmin store) :
    ∃ r, add_admin mainAdmin uid store = .ok r ∧ AdminInv mainAdmin r.store := by
  obtain ⟨fields, elems, rfl, hlook, hmem⟩ := h
  by_cases hmem2 : jmemInt uid elems = true
  · refine ⟨⟨Store.parsed (Json.obj fields),
      ["Admin qo'shildi: " ++ toString uid ++ " ✅"], false⟩,
      by simp [add_admin, load_json, hlook, hmem2], ?_⟩
    exact ⟨fields, elems, rfl, hlook, hmem⟩
  · refine ⟨⟨Store.parsed (Json.obj (oset "admins" (Json.arr (elems ++ [Json.num uid])) fields)),
      ["Admin qo'shildi: " ++ toString uid ++ " ✅"], true⟩,
      by simp [add_admin, load_json, hlook, hmem2], ?_⟩
    exact ⟨oset "admins" (Json.arr (elems ++ [Json.num uid])) fields,
      elems ++ [Json.num uid], rfl, olookup_oset_self _ _ _,
      jmemInt_append_left mainAdmin [Json.num uid] elems hmem⟩

lemma adminInv_remove (mainAdmin uid : Int) (store : Store)
    (h : AdminInv mainAdmin store) :
    ∃ r, remove_admin mainAdmin uid store = .ok r ∧ AdminInv mainAdmin r.store := by
  obtain ⟨fields, elems, rfl, hlook, hmem⟩ := h
  by_cases hcond : (jmemInt uid elems && uid != mainAdmin) = true
  · refine ⟨⟨Store.parsed (Json.obj (oset "admins" (Json.arr (jremoveInt uid elems)) fields)),
      ["Admin o'chirildi: " ++ toString uid ++ " ✅"], true⟩,
      by simp only [remove_admin, load_json, hlook, hcond, if_true], ?_⟩
    have hne : mainAdmin ≠ uid := by
      have hbne : (uid != mainAdmin) = true := by
        simp only [Bool.and_eq_true] at hcond
        exact hcond.2
      intro hc
      rw [hc] at hbne
      simp [bne] at hbne
    exact ⟨oset "admins" (Json.arr (jremoveInt uid elems)) fields,
      jremoveInt uid elems, rfl, olookup_oset_self _ _ _,
      by rw [jmemInt_remove_ne mainAdmin uid hne elems]; exact hmem⟩
  · refine ⟨⟨Store.parsed (Json.obj fields),
      ["Bu foydalanuvchini o'chirish mumkin emas."], false⟩,
      by simp only [remove_admin, load_json]; rw [hlook]; simp [hcond], ?_⟩
    exact ⟨fields, elems, rfl, hlook, hmem⟩

lemma runAdminOps_inv (mainAdmin : Int) (ops : List AdminOp) :
    ∀ store, AdminInv mainAdmin store →
      ∃ store2, runAdminOps mainAdmin ops store = .ok store2 ∧
        AdminInv mainAdmin store2 := by
  induction ops with
  | nil => intro store h; exact ⟨store, rfl, h⟩
  | cons op rest ih =>
    intro store h
    cases op with
    | add uid =>
      obtain ⟨r, hr, hinv⟩ := adminInv_add mainAdmin uid store h
      obtain ⟨store2, hrun, hinv2⟩ := ih r.store hinv
      exact ⟨store2, by simp [runAdminOps, runAdminOp, Except.map, hr, hrun], hinv2⟩
    | remove uid =>
      obtain ⟨r, hr, hinv⟩ := adminInv_remove mainAdmin uid store h
      obtain ⟨store2, hrun, hinv2⟩ := ih r.store hinv
      exact ⟨store2, by simp [runAdminOps, runAdminOp, Except.map, hr, hrun], hinv2⟩
    | get =>
      obtain ⟨r, hr, hrs, _⟩ := adminInv_get mainAdmin store h
      obtain ⟨store2, hrun, hinv2⟩ := ih store (by rw [← hrs] at h ⊢; exact h)
      refine ⟨store2, ?_, hinv2⟩
      simp only [runAdminOps, runAdminOp, hr, Except.map]
      rw [hrs]
      exact hrun

/-- Claim C4: starting from a persisted registry containing the main
administrator, any sequence of add/remove/get operations runs without
error and preserves the invariant, `getAdmins` afterwards still returns a
set containing (hence non-empty) the main administrator, and
`removeAdmin(mainAdmin)` is a pure rejection: same store, no write, only
the rejection message. -/
theorem claim4_main_admin_never_removed (mainAdmin : Int) (store : Store)
    (ops : List AdminOp) (h : AdminInv mainAdmin store) :
    (∃ store2, runAdminOps mainAdmin ops store = .ok store2 ∧
      AdminInv mainAdmin store2 ∧
      ∃ r, get_admins mainAdmin store2 = .ok r ∧
        jmemInt mainAdmin r.admins = true ∧ r.admins ≠ []) ∧
    remove_admin mainAdmin mainAdmin store =
      .ok ⟨store, ["Bu foydalanuvchini o'chirish mumkin emas."], false⟩ := by
  constructor
  · obtain ⟨store2, hrun, hinv⟩ := runAdminOps_inv mainAdmin ops store h
    obtain ⟨r, hget, _, hmem⟩ := adminInv_get mainAdmin store2 hinv
    exact ⟨store2, hrun, hinv, r, hget, hmem, jmemInt_ne_nil hmem⟩
  · obtain ⟨fields, elems, rfl, hlook, hmem⟩ := h
    simp [remove_admin, load_json, hlook]

/-- Witness for C4: a two-admin registry, an operation sequence that adds,
removes and reads, and the rejected removal of the main administrator. -/
theorem claim4_main_admin_never_removed_witness :
    AdminInv 111 (Store.parsed (Json.obj [("admins", Json.arr [Json.num 111, Json.num 222])])) ∧
    ((∃ store2, runAdminOps 111 [AdminOp.add 5, AdminOp.remove 222, AdminOp.get, AdminOp.remove 111]
        (Store.parsed (Json.obj [("admins", Json.arr [Json.num 111, Json.num 222])])) = .ok store2 ∧
      AdminInv 111 store2 ∧
      ∃ r, get_admins 111 store2 = .ok r ∧
        jmemInt 111 r.admins = true ∧ r.admins ≠ []) ∧
     remove_admin 111 111 (Store.parsed (Json.obj [("admins", Json.arr [Json.num 111, Json.num 222])])) =
      .ok ⟨Store.parsed (Json.obj [("admins", Json.arr [Json.num 111, Json.num 222])]),
           ["Bu foydalanuvchini o'chirish mumkin emas."], false⟩) :=
  ⟨⟨[("admins", Json.arr [Json.num 111, Json.num 222])], [Json.num 111, Json.num 222],
    rfl, rfl, by decide⟩,
   claim4_main_admin_never_removed 111 _ _
    ⟨[("admins", Json.arr [Json.num 111, Json.num 222])], [Json.num 111, Json.num 222],
     rfl, rfl, by decide⟩⟩

/-- Claim C5: against a well-shaped persisted record lacking the main
administrator, a single `getAdmins` appends it, persists the updated
record (write flag set) before returning, and the returned set contains
it; against a record already containing it, `getAdmins` performs no write
and returns the stored set unchanged. -/
theorem claim5_get_admins_selfheal (mainAdmin : Int)
    (fields : List (String × Json)) (elems : List Json)
    (hlook : olookup "admins" fields = some (Json.arr elems)) :
    (jmemInt mainAdmin elems = false →
      get_admins mainAdmin (Store.parsed (Json.obj fields)) =
        .ok ⟨elems ++ [Json.num mainAdmin],
             Store.parsed (Json.obj (oset "admins"
               (Json.arr (elems ++ [Json.num mainAdmin])) fields)), true⟩ ∧
      jmemInt mainAdmin (elems ++ [Json.num mainAdmin]) = true ∧
      olookup "admins" (oset "admins" (Json.arr (elems ++ [Json.num mainAdmin])) fields) =
        some (Json.arr (elems ++ [Json.num mainAdmin]))) ∧
    (jmemInt mainAdmin elems = true →
      get_admins mainAdmin (Store.parsed (Json.obj fields)) =
        .ok ⟨elems, Store.parsed (Json.obj fields), false⟩) := by
  constructor <;> intro hmem <;>
    simp [get_admins, load_json, hlook, hmem, jmemInt_append_main, olookup_oset_self]

/-- Witness for C5: a record holding only admin 222, healed by inserting
the main administrator 111. -/
theorem claim5_get_admins_selfheal_witness :
    (olookup "admins" [("admins", Json.arr [Json.num 222])] =
      some (Json.arr [Json.num 222]) ∧
     jmemInt 111 [Json.num 222] = false) ∧
    (get_admins 111 (Store.parsed (Json.obj [("admins", Json.arr [Json.num 222])])) =
      .ok ⟨[Json.num 222] ++ [Json.num 111],
           Store.parsed (Json.obj (oset "admins"
             (Json.arr ([Json.num 222] ++ [Json.num 111]))
             [("admins", Json.arr [Json.num 222])])), true⟩ ∧
     jmemInt 111 ([Json.num 222] ++ [Json.num 111]) = true ∧
     olookup "admins" (oset "admins" (Json.arr ([Json.num 222] ++ [Json.num 111]))
        [("admins", Json.arr [Json.num 222])]) =
      some (Json.arr ([Json.num 222] ++ [Json.num 111]))) :=
  ⟨⟨rfl, by decide⟩,
   (claim5_get_admins_selfheal 111 [("admins", Json.arr [Json.num 222])]
      [Json.num 222] rfl).1 (by decide)⟩

/-- Claim C6, counterexample: parseable store content of the wrong shape
does propagate an error.  An empty JSON object (no `admins` field) makes
`getAdmins` raise `KeyError`, and a JSON array makes `getMedia` raise
`AttributeError` — contradicting "for every possible content … neither
read ever raises".  The remaining conjuncts fix the error taxonomy for a
wrong-shaped `admins` value: a dict makes `getAdmins` and `addAdmin` raise
`AttributeError` (membership of the integer over string keys is false, so
`.append` runs on the dict) while `removeAdmin` raises nothing and takes
the rejection branch; a string or `null` (likewise a number or boolean)
makes the `in` operator raise `TypeError`. -/
theorem claim6_counterexample :
    get_admins 111 (Store.parsed (Json.obj [])) = .error .keyError ∧
    get_media (Store.parsed (Json.arr [])) = .error .attributeError ∧
    get_admins 111 (Store.parsed (Json.obj [("admins", Json.obj [])])) =
      .error .attributeError ∧
    add_admin 111 222 (Store.parsed (Json.obj [("admins", Json.obj [])])) =
      .error .attributeError ∧
    remove_admin 111 222 (Store.parsed (Json.obj [("admins", Json.obj [])])) =
      .ok ⟨Store.parsed (Json.obj [("admins", Json.obj [])]),
           ["Bu foydalanuvchini o'chirish mumkin emas."], false⟩ ∧
    get_admins 111 (Store.parsed (Json.obj [("admins", Json.str "x")])) =
      .error .typeError ∧
    get_admins 111 (Store.parsed (Json.obj [("admins", Json.null)])) =
      .error .typeError :=
  ⟨rfl, rfl, rfl, rfl, rfl, rfl, rfl⟩

/-- Claim C6 (amended): for an unreadable or unparsable store, `getMedia`
and `getAdmins` return the hard-coded defaults without raising; parseable
content of the wrong shape is not protected (see the counterexample for
the exact errors). -/
theorem claim6_unreadable_defaults (mainAdmin : Int) (store : Store)
    (h : store = Store.unreadable ∨ store = Store.unparsable) :
    get_media store =
      .ok [("intro_video_file_id", Json.null), ("voice_prompt_file_id", Json.null),
           ("russian_video_prompt_file_id", Json.null)] ∧
    get_admins mainAdmin store = .ok ⟨[Json.num mainAdmin], store, false⟩ := by
  rcases h with rfl | rfl <;>
    constructor <;>
      simp [get_media, get_admins, load_json, adminsDefault, setdefault, olookup, jmemInt]

/-- Witness for the amended C6, at an unreadable store. -/
theorem claim6_unreadable_defaults_witness :
    (Store.unreadable = Store.unreadable ∨ Store.unreadable = Store.unparsable) ∧
    (get_media Store.unreadable =
      .ok [("intro_video_file_id", Json.null), ("voice_prompt_file_id", Json.null),
           ("russian_video_prompt_file_id", Json.null)] ∧
     get_admins 111 Store.unreadable = .ok ⟨[Json.num 111], Store.unreadable, false⟩) :=
  ⟨Or.inl rfl, claim6_unreadable_defaults 111 Store.unreadable (Or.inl rfl)⟩

lemma jmemInt_false_not_mem (n : Int) :
    ∀ l, jmemInt n l = false → Json.num n ∉ l := by
  intro l
  induction l with
  | nil => intro _ hmem; simp at hmem
  | cons v rest ih =>
    intro h hmem
    rcases List.mem_cons.mp hmem with heq | hmem2
    · cases v with
      | num m =>
        simp only [jmemInt, Bool.or_eq_false_iff] at h
        injection heq with hnm
        rw [hnm] at h
        simp at h
      | null => exact Json.noConfusion heq
      | bool b => exact Json.noConfusion heq
      | str s => exact Json.noConfusion heq
      | arr l2 => exact Json.noConfusion heq
      | obj l2 => exact Json.noConfusion heq
    · cases v with
      | num m =>
        simp only [jmemInt, Bool.or_eq_false_iff] at h
        exact ih h.2 hmem2
      | null => exact ih h hmem2
      | bool b => exact ih h hmem2
      | str s => exact ih h hmem2
      | arr l2 => exact ih h hmem2
      | obj l2 => exact ih h hmem2

lemma nodup_concat_not_mem {l : List Json} {a : Json}
    (hn : l.Nodup) (hm : a ∉ l) : (l ++ [a]).Nodup := by
  rw [List.nodup_append]
  exact ⟨hn, List.nodup_singleton a,
    fun x hx hx2 => by
      rw [List.mem_singleton] at hx2
      subst hx2
      exact hm hx⟩

lemma add_admin_shape_nodup (mainAdmin : Int) :
    ∀ (uids : List Int) (fields : List (String × Json)) (elems : List Json),
      olookup "admins" fields = some (Json.arr elems) → elems.Nodup →
      ∃ fields2 elems2,
        runAdminOps mainAdmin (uids.map AdminOp.add) (Store.parsed (Json.obj fields)) =
          .ok (Store.parsed (Json.obj fields2)) ∧
        olookup "admins" fields2 = some (Json.arr elems2) ∧ elems2.Nodup := by
  intro uids
  induction uids with
  | nil => intro fields elems hl hn; exact ⟨fields, elems, rfl, hl, hn⟩
  | cons uid rest ih =>
    intro fields elems hl hn
    by_cases hmem : jmemInt uid elems = true
    · obtain ⟨f2, e2, hrun, hl2, hn2⟩ := ih fields elems hl hn
      refine ⟨f2, e2, ?_, hl2, hn2⟩
      have hstep : runAdminOp mainAdmin (Store.parsed (Json.obj fields)) (.add uid) =
          .ok (Store.parsed (Json.obj fields)) := by
        simp [runAdminOp, add_admin, load_json, hl, hmem, Except.map]
      simp only [List.map_cons, runAdminOps, hstep]
      exact hrun
    · have hstep : runAdminOp mainAdmin (Store.parsed (Json.obj fields)) (.add uid) =
          .ok (Store.parsed (Json.obj
            (oset "admins" (Json.arr (elems ++ [Json.num uid])) fields))) := by
        simp [runAdminOp, add_admin, load_json, hl, hmem, Except.map]
      have hn2 : (elems ++ [Json.num uid]).Nodup :=
        nodup_concat_not_mem hn
          (jmemInt_false_not_mem uid elems (Bool.not_eq_true _ ▸ eq_false_of_ne_true hmem))
      obtain ⟨f2, e2, hrun, hl2, hn3⟩ :=
        ih (oset "admins" (Json.arr (elems ++ [Json.num uid])) fields)
          (elems ++ [Json.num uid]) (olookup_oset_self _ _ _) hn2
      refine ⟨f2, e2, ?_, hl2, hn3⟩
      simp only [List.map_cons, runAdminOps, hstep]
      exact hrun

/-- Claim C10: `addAdmin` is idempotent on the persisted registry — with
`uid` already stored, the call performs no write and returns the store
unchanged (only the confirmation reply) — and, starting from a
duplicate-free admin list, no sequence of `addAdmin` calls ever introduces
a duplicate identity. -/
theorem claim10_add_admin_idempotent (mainAdmin : Int) (store : Store)
    (fields : List (String × Json)) (elems : List Json)
    (hstore : store = Store.parsed (Json.obj fields))
    (hlook : olookup "admins" fields = some (Json.arr elems)) :
    (∀ uid : Int, jmemInt uid elems = true →
      add_admin mainAdmin uid store =
        .ok ⟨store, ["Admin qo'shildi: " ++ toString uid ++ " ✅"], false⟩) ∧
    (elems.Nodup → ∀ uids : List Int, ∃ fields2 elems2,
      runAdminOps mainAdmin (uids.map AdminOp.add) store =
        .ok (Store.parsed (Json.obj fields2)) ∧
      olookup "admins" fields2 = some (Json.arr elems2) ∧ elems2.Nodup) := by
  subst hstore
  constructor
  · intro uid hmem
    simp [add_admin, load_json, hlook, hmem]
  · intro hn uids
    exact add_admin_shape_nodup mainAdmin uids fields elems hlook hn

/-- Witness for C10: re-adding the already present admin 111 leaves the
record byte-for-byte unchanged, and the add sequence `[222, 222, 111]`
keeps the list duplicate-free. -/
theorem claim10_add_admin_idempotent_witness :
    (Store.parsed (Json.obj [("admins", Json.arr [Json.num 111])]) =
      Store.parsed (Json.obj [("admins", Json.arr [Json.num 111])]) ∧
     olookup "admins" [("admins", Json.arr [Json.num 111])] =
      some (Json.arr [Json.num 111]) ∧
     jmemInt 111 [Json.num 111] = true ∧ ([Json.num 111] : List Json).Nodup) ∧
    (add_admin 111 111 (Store.parsed (Json.obj [("admins", Json.arr [Json.num 111])])) =
      .ok ⟨Store.parsed (Json.obj [("admins", Json.arr [Json.num 111])]),
           ["Admin qo'shildi: " ++ toString (111 : Int) ++ " ✅"], false⟩ ∧
     ∃ fields2 elems2,
      runAdminOps 111 ([222, 222, 111].map AdminOp.add)
          (Store.parsed (Json.obj [("admins", Json.arr [Json.num 111])])) =
        .ok (Store.parsed (Json.obj fields2)) ∧
      olookup "admins" fields2 = some (Json.arr elems2) ∧ elems2.Nodup) := by
  have h := claim10_add_admin_idempotent 111
    (Store.parsed (Json.obj [("admins", Json.arr [Json.num 111])]))
    [("admins", Json.arr [Json.num 111])] [Json.num 111] rfl rfl
  refine ⟨⟨rfl, rfl, by decide, ?_⟩, h.1 111 (by decide), h.2 ?_ [222, 222, 111]⟩
  · simp
  · simp

end HiringBot
